import Mathlib

/-!
Verification development for the slide-translation pipeline implemented in
`backend/services/ppt_service.py`.

The Python functions that the claims concern are shallowly embedded below:
pure string manipulation is translated function-by-function; network calls
(`requests.post`, the Anthropic SDK call) are modelled by oracles supplying
the responses the remote side would return; PIL/pytesseract image handling is
external to the repository and is modelled by the text it produces.  Machine
floats of the source are modelled by exact rationals (every constant involved
— 0.5pt decrements, the 1e-6 price scale — is float-representable, and the
cost claim is stated "up to floating-point tolerance", which the exact
rational computation witnesses).

Section 1: Python string/char semantics used by the source.
Section 2: a model of `json.loads` (strict JSON as accepted by Python's json
           module; NaN/Infinity literals and lone surrogates are outside the
           modelled domain — none of the inputs used below contain them).
Section 3..: the embedded functions of ppt_service.py, then the theorems.
-/

/-! ### Section 1: Python string semantics -/

/-- Python `str` whitespace (the ASCII part, which is all this pipeline meets):
space, tab, newline, carriage return, vertical tab, form feed. -/
def isPyWs (c : Char) : Bool :=
  c = ' ' || c = '\t' || c = '\n' || c = '\x0d' || c = Char.ofNat 11 || c = Char.ofNat 12

/-- Python `s.strip()` with an arbitrary character predicate. -/
def pyStripP (p : Char → Bool) (s : String) : String :=
  String.mk (((s.toList.dropWhile p).reverse.dropWhile p).reverse)

/-- Python `s.strip()` (default whitespace). -/
def pyStrip (s : String) : String := pyStripP isPyWs s

/-- Python `s.rstrip()` (default whitespace). -/
def pyRstrip (s : String) : String :=
  String.mk ((s.toList.reverse.dropWhile isPyWs).reverse)

/-- Python `s.rstrip(chars)` for a single-character `chars` argument. -/
def pyRstripChar (c : Char) (s : String) : String :=
  String.mk ((s.toList.reverse.dropWhile (· = c)).reverse)

/-- Python `s.lstrip(chars)` for a single-character `chars` argument. -/
def pyLstripChar (c : Char) (s : String) : String :=
  String.mk (s.toList.dropWhile (· = c))

/-- Worker for `pySplitlines`. -/
def pySplitlinesGo : List Char → List Char → List String
  | [], cur => if cur.isEmpty then [] else [String.mk cur.reverse]
  | '\x0d' :: '\n' :: rest, cur => String.mk cur.reverse :: pySplitlinesGo rest []
  | '\x0d' :: rest, cur => String.mk cur.reverse :: pySplitlinesGo rest []
  | '\n' :: rest, cur => String.mk cur.reverse :: pySplitlinesGo rest []
  | c :: rest, cur => pySplitlinesGo rest (c :: cur)

/-- Python `s.splitlines()` restricted to the line terminators that occur in
this pipeline (`\n`, `\r`, `\r\n`); no trailing empty element. -/
def pySplitlines (s : String) : List String := pySplitlinesGo s.toList []

/-- Worker for `pySplitWs`. -/
def pySplitWsGo : List Char → List Char → List String
  | [], cur => if cur.isEmpty then [] else [String.mk cur.reverse]
  | c :: rest, cur =>
    if isPyWs c then
      if cur.isEmpty then pySplitWsGo rest []
      else String.mk cur.reverse :: pySplitWsGo rest []
    else pySplitWsGo rest (c :: cur)

/-- Python `s.split()` with no argument: split on whitespace runs, no empties. -/
def pySplitWs (s : String) : List String := pySplitWsGo s.toList []

/-- Index of the first occurrence of `needle` in `hay` (`none` if absent). -/
def listIndexOfSub (needle hay : List Char) : Option Nat :=
  match hay with
  | [] => if needle.isEmpty then some 0 else none
  | _ :: tl =>
    if needle.isPrefixOf hay then some 0
    else (listIndexOfSub needle tl).map (· + 1)

/-- Python `sub in s` (substring containment). -/
def pyContains (sub s : String) : Bool := (listIndexOfSub sub.toList s.toList).isSome

/-- Python `s.find(sub, start)` with a non-negative `start`; returns -1 when absent. -/
def pyFindFrom (s sub : String) (start : Nat) : Int :=
  match listIndexOfSub sub.toList (s.toList.drop start) with
  | some i => ((min start s.length) + i : Nat)
  | none => -1

/-- Python `s.find(sub)`. -/
def pyFind (s sub : String) : Int := pyFindFrom s sub 0

/-- Python slice `s[a:b]` for integer bounds (negative indices count from the
end, out-of-range bounds are clamped). -/
def pySlice (s : String) (a b : Int) : String :=
  let n : Int := s.length
  let norm : Int → Nat := fun i =>
    if i < 0 then (max (n + i) 0).toNat else (min i n).toNat
  let a' := norm a
  let b' := norm b
  String.mk ((s.toList.drop a').take (b' - a'))

/-- Python `s.lower()` (ASCII case mapping, which covers the strings used here). -/
def pyLower (s : String) : String := String.mk (s.toList.map Char.toLower)

/-- Python `s.startswith(prefix)`. -/
def pyStartsWith (s pre : String) : Bool := pre.toList.isPrefixOf s.toList

/-- Python `s.endswith(suffix)`. -/
def pyEndsWith (s suf : String) : Bool := suf.toList.isSuffixOf s.toList

/-- Python `s.endswith(options)` for a tuple of suffixes. -/
def pyEndsWithAny (s : String) (opts : List String) : Bool :=
  opts.any (fun o => pyEndsWith s o)

/-- `sep.join(xs)`. -/
def pyJoin (sep : String) (xs : List String) : String :=
  String.mk (((xs.map String.toList).intersperse sep.toList).flatten)

/-- Python `s.isupper()` for ASCII text: at least one cased character and all
cased characters uppercase (cased = ASCII letter in the modelled domain). -/
def pyIsUpper (s : String) : Bool :=
  let cased := s.toList.filter Char.isAlpha
  !cased.isEmpty && cased.all Char.isUpper

/-- Truthiness of an optional Python string (`None` and `""` are falsy). -/
def pyTruthyOptStr : Option String → Bool
  | none => false
  | some s => s ≠ ""

/-! ### Section 2: a model of Python `json.loads` -/

/-- JSON values as produced by `json.loads`.  Numbers are carried exactly as
rationals (the claims do no float arithmetic on parsed numbers). -/
inductive Json where
  | null
  | bool (b : Bool)
  | num (q : ℚ)
  | str (s : String)
  | arr (elems : List Json)
  | obj (members : List (String × Json))

/-- Lookup of a key in a parsed JSON object.  Python's dict keeps the last
duplicate, hence the reversed search. -/
def jsonObjGet (members : List (String × Json)) (key : String) : Option Json :=
  (members.reverse.find? (fun kv => kv.1 = key)).map (·.2)

/-- Key membership in a parsed JSON object (`key in dict`). -/
def jsonObjHas (members : List (String × Json)) (key : String) : Bool :=
  members.any (fun kv => kv.1 = key)

/-- Python truthiness of a JSON value. -/
def jsonTruthy : Json → Bool
  | .null => false
  | .bool b => b
  | .num q => q ≠ 0
  | .str s => s ≠ ""
  | .arr l => !l.isEmpty
  | .obj m => !m.isEmpty

/-- Hex digit value. -/
def hexVal (c : Char) : Option Nat :=
  if '0' ≤ c ∧ c ≤ '9' then some (c.toNat - '0'.toNat)
  else if 'a' ≤ c ∧ c ≤ 'f' then some (c.toNat - 'a'.toNat + 10)
  else if 'A' ≤ c ∧ c ≤ 'F' then some (c.toNat - 'A'.toNat + 10)
  else none

/-- JSON whitespace skipping (space, tab, newline, carriage return). -/
def jsonSkipWs : List Char → List Char
  | ' ' :: rest => jsonSkipWs rest
  | '\t' :: rest => jsonSkipWs rest
  | '\n' :: rest => jsonSkipWs rest
  | '\x0d' :: rest => jsonSkipWs rest
  | cs => cs

/-- Body of a JSON string literal, after the opening quote.  Fails on raw
control characters (strict mode) and on `\u` surrogate halves (none of the
modelled inputs contain them). -/
def parseJStringGo : Nat → List Char → List Char → Option (String × List Char)
  | 0, _, _ => none
  | _ + 1, '"' :: rest, acc => some (String.mk acc.reverse, rest)
  | fuel + 1, '\\' :: e :: rest, acc =>
    match e with
    | '"' => parseJStringGo fuel rest ('"' :: acc)
    | '\\' => parseJStringGo fuel rest ('\\' :: acc)
    | '/' => parseJStringGo fuel rest ('/' :: acc)
    | 'b' => parseJStringGo fuel rest (Char.ofNat 8 :: acc)
    | 'f' => parseJStringGo fuel rest (Char.ofNat 12 :: acc)
    | 'n' => parseJStringGo fuel rest ('\n' :: acc)
    | 'r' => parseJStringGo fuel rest ('\x0d' :: acc)
    | 't' => parseJStringGo fuel rest ('\t' :: acc)
    | 'u' =>
      match rest with
      | h1 :: h2 :: h3 :: h4 :: rest' =>
        match hexVal h1, hexVal h2, hexVal h3, hexVal h4 with
        | some a, some b, some c, some d =>
          let code := ((a * 16 + b) * 16 + c) * 16 + d
          if 0xD800 ≤ code ∧ code ≤ 0xDFFF then none
          else parseJStringGo fuel rest' (Char.ofNat code :: acc)
        | _, _, _, _ => none
      | _ => none
    | _ => none
  | fuel + 1, c :: rest, acc =>
    if c.toNat < 0x20 then none else parseJStringGo fuel rest (c :: acc)
  | _ + 1, [], _ => none

/-- Digits prefix of a character list. -/
def takeDigits (cs : List Char) : List Char × List Char :=
  (cs.takeWhile Char.isDigit, cs.dropWhile Char.isDigit)

/-- Natural number denoted by a list of decimal digits. -/
def digitsToNat (ds : List Char) : Nat :=
  ds.foldl (fun acc c => acc * 10 + (c.toNat - '0'.toNat)) 0

/-- JSON number parsing: `-?(0|[1-9][0-9]*)(\.[0-9]+)?([eE][+-]?[0-9]+)?`,
with the exact rational value. -/
def parseJNumber (cs : List Char) : Option (ℚ × List Char) :=
  let (neg, cs1) : Bool × List Char :=
    match cs with
    | '-' :: rest => (true, rest)
    | _ => (false, cs)
  let (ints, cs2) := takeDigits cs1
  match ints with
  | [] => none
  | d0 :: ds =>
    if d0 = '0' ∧ ds ≠ [] then none
    else
      let ipart : ℚ := (digitsToNat ints : ℚ)
      let (fpart, cs3) : ℚ × List Char :=
        match cs2 with
        | '.' :: rest =>
          let (fs, rest') := takeDigits rest
          ((digitsToNat fs : ℚ) / ((10 : ℚ) ^ fs.length), rest')
        | _ => (0, cs2)
      let fracOk : Bool :=
        match cs2 with
        | '.' :: rest => !(takeDigits rest).1.isEmpty
        | _ => true
      if !fracOk then none
      else
        match cs3 with
        | c :: rest =>
          if c = 'e' ∨ c = 'E' then
            let (esign, rest1) : Bool × List Char :=
              match rest with
              | '+' :: r => (false, r)
              | '-' :: r => (true, r)
              | _ => (false, rest)
            let (es, rest2) := takeDigits rest1
            if es.isEmpty then none
            else
              let e := digitsToNat es
              let base : ℚ := ipart + fpart
              let scaled : ℚ := if esign then base / ((10 : ℚ) ^ e) else base * ((10 : ℚ) ^ e)
              some ((if neg then -scaled else scaled), rest2)
          else some ((if neg then -(ipart + fpart) else ipart + fpart), cs3)
        | [] => some ((if neg then -(ipart + fpart) else ipart + fpart), [])

mutual

/-- One JSON value (fuel-guarded recursive descent). -/
def parseJValue : Nat → List Char → Option (Json × List Char)
  | 0, _ => none
  | fuel + 1, cs =>
    match jsonSkipWs cs with
    | 'n' :: 'u' :: 'l' :: 'l' :: rest => some (.null, rest)
    | 't' :: 'r' :: 'u' :: 'e' :: rest => some (.bool true, rest)
    | 'f' :: 'a' :: 'l' :: 's' :: 'e' :: rest => some (.bool false, rest)
    | '"' :: rest =>
      match parseJStringGo (rest.length + 1) rest [] with
      | some (s, rest') => some (.str s, rest')
      | none => none
    | '[' :: rest =>
      (match jsonSkipWs rest with
       | ']' :: rest' => some (.arr [], rest')
       | _ =>
         match parseJElems fuel rest with
         | some (xs, rest') => some (.arr xs, rest')
         | none => none)
    | '{' :: rest =>
      (match jsonSkipWs rest with
       | '}' :: rest' => some (.obj [], rest')
       | _ =>
         match parseJMembers fuel rest with
         | some (ms, rest') => some (.obj ms, rest')
         | none => none)
    | cs' =>
      match parseJNumber cs' with
      | some (q, rest) => some (.num q, rest)
      | none => none

/-- Comma-separated array elements, up to and including the closing bracket. -/
def parseJElems : Nat → List Char → Option (List Json × List Char)
  | 0, _ => none
  | fuel + 1, cs =>
    match parseJValue fuel cs with
    | some (v, rest) =>
      (match jsonSkipWs rest with
       | ',' :: rest' =>
         match parseJElems fuel rest' with
         | some (vs, rest'') => some (v :: vs, rest'')
         | none => none
       | ']' :: rest' => some ([v], rest')
       | _ => none)
    | none => none

/-- Comma-separated object members, up to and including the closing brace. -/
def parseJMembers : Nat → List Char → Option (List (String × Json) × List Char)
  | 0, _ => none
  | fuel + 1, cs =>
    match jsonSkipWs cs with
    | '"' :: rest =>
      (match parseJStringGo (rest.length + 1) rest [] with
       | some (k, rest1) =>
         (match jsonSkipWs rest1 with
          | ':' :: rest2 =>
            (match parseJValue fuel rest2 with
             | some (v, rest3) =>
               (match jsonSkipWs rest3 with
                | ',' :: rest4 =>
                  (match parseJMembers fuel rest4 with
                   | some (ms, rest5) => some ((k, v) :: ms, rest5)
                   | none => none)
                | '}' :: rest4 => some ([(k, v)], rest4)
                | _ => none)
             | none => none)
          | _ => none)
       | none => none)
    | _ => none

end

/-- Model of Python `json.loads`: parse one document, insist on nothing but
whitespace after it. -/
def json_loads (s : String) : Option Json :=
  match parseJValue (2 * s.length + 8) s.toList with
  | some (j, rest) => if (jsonSkipWs rest).isEmpty then some j else none
  | none => none

/-! ### Section 3: the structured text model (`_parse_vision_response`, SIZE_MAP) -/

/-- The `formatting` sub-dict of a paragraph block.  `bold` stores the Python
truthiness of the JSON value (the renderer only ever uses it truthily and
assigns it to `run.font.bold`). -/
structure FormattingSpec where
  bold : Bool
  size_relative : Int
  color : String
  alignment : String
deriving DecidableEq, Repr

/-- A paragraph block dict as built by `_parse_vision_response` /
`build_text_structure` (`type`, `original`, `translated`, `formatting`,
`has_emoji`). -/
structure TextBlockD where
  ptype : String
  original : String
  translated : String
  formatting : FormattingSpec
  has_emoji : Bool
deriving DecidableEq, Repr

/-- A line dict of the "lines" schema (`line_blocks`, `alignment`). -/
structure LineEntryD where
  line_blocks : List TextBlockD
  alignment : String
deriving DecidableEq, Repr

/-- The `structure` value: either the "lines" schema or a flat block list
(legacy vision schema and the OCR chain both produce the flat shape). -/
inductive StructureD where
  | lines (entries : List LineEntryD)
  | flat (items : List TextBlockD)
deriving DecidableEq, Repr

/-- The `usage` dict attached to provider results. -/
structure UsageD where
  input_tokens : Nat
  output_tokens : Nat
  total_tokens : Nat
deriving DecidableEq, Repr

/-- A provider result dict.  Every field is optional because the source
builds several dict shapes (vision success, vision error, OCR-chain result);
`none` models an absent key (for `openrouter_error`, whose value may itself be
Python `None`, `none` conflates absent-key with `None` — no claim depends on
the difference). -/
structure ResultDictD where
  original_text : Option String
  translated_text : Option String
  structure_kv : Option StructureD
  usage : Option UsageD
  translation_method : Option String
  translation_model : Option String
  openrouter_error : Option String
  error : Option String
deriving DecidableEq, Repr

/-- A `{"error": msg}` dict as returned by the vision adapters on failure. -/
def errorResult (msg : String) : ResultDictD :=
  ⟨none, none, none, none, none, none, none, some msg⟩

/-- `SIZE_MAP` of ppt_service.py. -/
def SIZE_MAP : List (String × Int) :=
  [("huge", 7), ("very-large", 5), ("large", 3), ("normal", 0), ("small", -2), ("tiny", -4)]

/-- `SIZE_MAP.get(key, 0)`. -/
def sizeMapGet (k : String) : Int :=
  ((SIZE_MAP.find? (fun kv => kv.1 = k)).map (·.2)).getD 0

/-- Python iteration over a JSON value (`for x in v`): lists yield elements,
strings yield 1-character strings, dicts yield their keys; numbers, booleans
and `None` raise `TypeError` (modelled as `none`). -/
def pyIter : Json → Option (List Json)
  | .arr l => some l
  | .str s => some (s.toList.map (fun c => Json.str (String.mk [c])))
  | .obj m => some (m.map (fun kv => Json.str kv.1))
  | _ => none

/-- Outcome of `_parse_vision_response`: a value, or an exception
(`TypeError`/`AttributeError` from ill-shaped JSON) that the caller's generic
handler turns into an error dict. -/
inductive PVOut where
  | ok (r : Option ResultDictD)
  | typeErr
deriving DecidableEq, Repr

/-- One block dict of the vision JSON → a paragraph block.  Non-dict blocks
raise (`AttributeError` on `.get`). -/
def parseVisionBlock (defaultAlign : String) (b : Json) : Option TextBlockD :=
  match b with
  | .obj bm =>
    let sizeRel : Int :=
      match (jsonObjGet bm "size").getD (.str "normal") with
      | .str s => sizeMapGet s
      | _ => 0
    let text : String :=
      match (jsonObjGet bm "text").getD (.str "") with
      | .str s => s
      | _ => ""
    let bold : Bool := jsonTruthy ((jsonObjGet bm "bold").getD (.bool false))
    let color : String :=
      match (jsonObjGet bm "color").getD (.str "black") with
      | .str s => s
      | _ => "black"
    let align : String :=
      match (jsonObjGet bm "alignment").getD (.str defaultAlign) with
      | .str s => s
      | _ => defaultAlign
    some ⟨"paragraph", text, text, ⟨bold, sizeRel, color, align⟩, true⟩
  | _ => none

/-- One line dict of the "lines" schema.  Non-dict lines raise. -/
def parseVisionLine (l : Json) : Option LineEntryD :=
  match l with
  | .obj lm =>
    let lineAlign : String :=
      match (jsonObjGet lm "alignment").getD (.str "left") with
      | .str s => s
      | _ => "left"
    match pyIter ((jsonObjGet lm "blocks").getD (.arr [])) with
    | some bs =>
      match bs.mapM (parseVisionBlock lineAlign) with
      | some blocks => some ⟨blocks, lineAlign⟩
      | none => none
    | none => none
  | _ => none

/-- `_parse_vision_response` (ppt_service.py:299): convert the parsed provider
JSON into the PPT structure, handling both the "lines" and the legacy
"blocks" schema; `None` when neither key is present. -/
def _parse_vision_response (j : Json) : PVOut :=
  match j with
  | .obj members =>
    if jsonObjHas members "lines" then
      match pyIter ((jsonObjGet members "lines").getD (.arr [])) with
      | some ls =>
        match ls.mapM parseVisionLine with
        | some entries =>
          .ok (some ⟨some "", some "", some (.lines entries), none, none, none, none, none⟩)
        | none => .typeErr
      | none => .typeErr
    else if jsonObjHas members "blocks" then
      match pyIter ((jsonObjGet members "blocks").getD (.arr [])) with
      | some bs =>
        match bs.mapM (parseVisionBlock "left") with
        | some blocks =>
          .ok (some ⟨some "", some "", some (.flat blocks), none, none, none, none, none⟩)
        | none => .typeErr
      | none => .typeErr
    else .ok none
  | .arr _ => .ok none
  | .str s =>
    if pyContains "lines" s ∨ pyContains "blocks" s then .typeErr else .ok none
  | _ => .typeErr

/-! ### Section 4: `_repair_truncated_json` (ppt_service.py:347) -/

/-- The backward-scan boundary test of `_repair_truncated_json`.  The source
writes `c in ('}', ']', '"', '0123456789', 'e', 'l', 's', 'n', 'r', 'u')`:
tuple membership compares the single character `c` against each element, and
no character ever equals the nine-character string `'0123456789'`, so digits
are NOT boundary characters. -/
def repairBoundary (c : Char) : Bool :=
  c ∈ ['}', ']', '"', 'e', 'l', 's', 'n', 'r', 'u']

/-- Index of the last boundary character (the backward `for i in range(...)`
scan). -/
def lastBoundaryIdx (cs : List Char) : Option Nat :=
  match cs.reverse.findIdx? repairBoundary with
  | some k => some (cs.length - 1 - k)
  | none => none

/-- The bracket/brace-vs-string walk of `_repair_truncated_json`; returns the
stack of unclosed openers, topmost first. -/
def bracketScan : List Char → Bool → Bool → List Char → List Char
  | [], _, _, stack => stack
  | c :: rest, inStr, esc, stack =>
    if esc then bracketScan rest inStr false stack
    else if c = '\\' then bracketScan rest inStr true stack
    else if c = '"' then bracketScan rest (!inStr) false stack
    else if inStr then bracketScan rest inStr false stack
    else if c = '{' ∨ c = '[' then bracketScan rest inStr false (c :: stack)
    else if c = '}' then
      (match stack with
       | '{' :: tl => bracketScan rest inStr false tl
       | _ => bracketScan rest inStr false stack)
    else if c = ']' then
      (match stack with
       | '[' :: tl => bracketScan rest inStr false tl
       | _ => bracketScan rest inStr false stack)
    else bracketScan rest inStr false stack

/-- Closing bracket for an opener. -/
def closingOf (c : Char) : Char := if c = '{' then '}' else ']'

/-- `_repair_truncated_json` (ppt_service.py:347): truncate back to the last
boundary character, balance brackets/braces with string-escape awareness, and
append the missing closers. -/
def _repair_truncated_json (textIn : String) : Option String :=
  let text := pyStrip textIn
  if text = "" then none
  else
    match lastBoundaryIdx text.toList with
    | none => none
    | some i =>
      let candidate := String.mk (text.toList.take (i + 1))
      let stack := bracketScan candidate.toList false false []
      if stack.isEmpty then some candidate
      else
        let closers := String.mk (stack.map closingOf)
        let cand2 := pyRstrip (pyRstripChar ',' (pyRstrip candidate))
        some (cand2 ++ closers)

/-! ### Section 5: `call_claude_vision` (ppt_service.py:405) — response handling -/

/-- The code-fence stripping of `call_claude_vision` (lines 450-458) and of
its compact retry (lines 495-503): strip, then cut out the fenced part when a
```json (or bare ```) fence is present.  `pyFind` misses yield Python's `-1`
slice semantics, reproduced by `pySlice`. -/
def claude_fence_strip (responseText : String) : String :=
  let json_text := pyStrip responseText
  if pyContains "```json" json_text then
    let start : Int := pyFind json_text "```json" + 7
    let stop : Int := pyFindFrom json_text "```" start.toNat
    pyStrip (pySlice json_text start stop)
  else if pyContains "```" json_text then
    let start : Int := pyFind json_text "```" + 3
    let stop : Int := pyFindFrom json_text "```" start.toNat
    pyStrip (pySlice json_text start stop)
  else json_text

/-- The names bound in the scope of `call_claude_vision` (its parameters and
every name the function body assigns), transcribed from ppt_service.py:405-529. -/
def call_claude_vision_locals : List String :=
  ["image", "prompt", "api_key", "model", "image_base64", "client", "make_call",
   "message", "response_text", "usage", "json_text", "start", "end", "result",
   "parsed", "e", "repaired", "compact_prompt", "make_compact_call",
   "retry_message", "retry_text", "retry_err", "error_msg", "user_msg", "traceback"]

/-- The module-level names of ppt_service.py (imports, module constants and
function definitions). -/
def ppt_service_globals : List String :=
  ["Presentation", "Inches", "Pt", "RGBColor", "PP_ALIGN", "MSO_AUTO_SIZE", "Image",
   "ImageEnhance", "ImageFilter", "detect", "LangDetectException", "io", "json",
   "base64", "time", "anthropic", "requests", "pytesseract", "Dict", "List",
   "Optional", "Tuple", "asyncio", "ThreadPoolExecutor", "executor",
   "encode_image_to_base64", "_create_compact_vision_prompt", "create_vision_prompt",
   "SIZE_MAP", "_parse_vision_response", "_repair_truncated_json",
   "call_claude_vision", "call_openrouter_vision", "ocr_extract_text",
   "detect_language_from_image", "detect_language_from_presentation",
   "_ct2_translators", "_get_ct2_translator", "translate_offline",
   "build_text_structure", "post_process_translation", "call_ocr_openrouter",
   "has_image_on_left", "reduce_font_if_overflow", "apply_formatting_from_structure",
   "process_ppt_slide", "create_translated_ppt"]

/-- Python builtins (the ones a bare-name load could fall through to). -/
def python_builtins_used : List String :=
  ["print", "range", "len", "str", "min", "max", "sum", "any", "all", "open",
   "set", "int", "float", "enumerate", "isinstance", "getattr", "bool", "hasattr"]

/-- Whether a bare-name load inside `call_claude_vision` resolves (local scope,
then module globals, then builtins); an unresolved name raises `NameError`. -/
def pyNameDefined (n : String) : Bool :=
  call_claude_vision_locals.contains n || ppt_service_globals.contains n ||
    python_builtins_used.contains n

/-- The compact-prompt retry block of `call_claude_vision` (lines 479-509).
The block first evaluates `_create_compact_vision_prompt(source_lang,
target_lang)`; when either name fails to resolve this raises `NameError`,
which the block's own `except Exception` catches, returning `None` — in that
case no retry API call is made.  The second component counts retry API calls
actually issued. -/
def claude_compact_retry (retryText : String) : Option ResultDictD × Nat :=
  if pyNameDefined "source_lang" && pyNameDefined "target_lang" then
    -- (not reachable in the source as written: both lookups raise NameError)
    let rt := claude_fence_strip retryText
    match json_loads rt with
    | some j =>
      (match _parse_vision_response j with
       | .ok r => (r, 1)
       | .typeErr => (none, 1))
    | none => (none, 1)
  else (none, 0)

/-- Result of the response-handling stage of `call_claude_vision`. -/
structure ClaudeCallOut where
  result : Option ResultDictD
  retry_requests : Nat
deriving DecidableEq, Repr

/-- `call_claude_vision` (ppt_service.py:405), from the provider's response
text onwards: fence-strip, parse, bracket-balancing repair, compact-prompt
retry.  `usageIn`/`usageOut` are the SDK-reported token counts; `retryText`
is what the provider would answer to the compact retry (if one were made). -/
def call_claude_vision_model (responseText : String) (usageIn usageOut : Nat)
    (retryText : String) : ClaudeCallOut :=
  let json_text := claude_fence_strip responseText
  match json_loads json_text with
  | some j =>
    (match _parse_vision_response j with
     | .ok (some parsed) =>
       ⟨some { parsed with usage := some ⟨usageIn, usageOut, usageIn + usageOut⟩ }, 0⟩
     | .ok none => ⟨none, 0⟩
     | .typeErr => ⟨some (errorResult "Claude API error: TypeError"), 0⟩)
  | none =>
    match _repair_truncated_json json_text with
    | some rep =>
      (match json_loads rep with
       | some j =>
         -- note: the repair path (source line 475) does NOT attach usage
         (match _parse_vision_response j with
          | .ok r => ⟨r, 0⟩
          | .typeErr => ⟨some (errorResult "Claude API error: TypeError"), 0⟩)
       | none =>
         let (r, n) := claude_compact_retry retryText
         ⟨r, n⟩)
    | none =>
      let (r, n) := claude_compact_retry retryText
      ⟨r, n⟩

/-! ### Section 6: `ocr_extract_text` (ppt_service.py:623) — the text cleanup
pipeline after the external pytesseract call -/

/-- The emoji/symbol strip of ppt_service.py:665-670: remove supplementary
planes, misc symbols (U+2600-U+27BF) and the emoji blocks. -/
def emojiStrip (s : String) : String :=
  String.mk (s.toList.filter (fun c =>
    !(0x10000 ≤ c.toNat ∨ (0x2600 ≤ c.toNat ∧ c.toNat ≤ 0x27BF) ∨
      (0x1F300 ≤ c.toNat ∧ c.toNat ≤ 0x1F9FF))))

/-- The first cleanup of ppt_service.py:648-661: strip each line, collapse
runs of blank lines to one, join with newlines and strip the whole. -/
def ocrCollapse (text : String) : String :=
  let step := (pySplitlines text).foldl
    (fun (acc : List String × Bool) line =>
      let stripped := pyStrip line
      if stripped ≠ "" then (acc.1 ++ [stripped], false)
      else if !acc.2 then (acc.1 ++ [""], true)
      else acc)
    ([], false)
  pyStrip (pyJoin "\n" step.1)

/-- Consume one-or-more characters satisfying `p` (regex `p+`). -/
def consumeRun (p : Char → Bool) (cs : List Char) : Option (List Char) :=
  match cs with
  | c :: rest => if p c then some (rest.dropWhile p) else none
  | [] => none

/-- Does `(\d+\s+){3}` match starting exactly here? -/
def scaleDigitsPatternAt (cs : List Char) : Bool :=
  match consumeRun Char.isDigit cs with
  | some r1 =>
    (match consumeRun isPyWs r1 with
     | some r2 =>
       (match consumeRun Char.isDigit r2 with
        | some r3 =>
          (match consumeRun isPyWs r3 with
           | some r4 =>
             (match consumeRun Char.isDigit r4 with
              | some r5 => (consumeRun isPyWs r5).isSome
              | none => false)
           | none => false)
        | none => false)
     | none => false)
  | none => false

/-- Does a predicate on suffixes hold for some suffix? -/
def anySuffix (p : List Char → Bool) : List Char → Bool
  | [] => p []
  | c :: rest => p (c :: rest) || anySuffix p rest

/-- `re.search(r'(\d+\s+){3,}\d*[\]\)]?', text)`: the trailing `\d*[\]\)]?`
can match empty, so a match exists iff `(\d+\s+){3}` matches somewhere. -/
def hasScaleDigitRun (text : String) : Bool :=
  anySuffix scaleDigitsPatternAt text.toList

/-- Count of `[a-zA-Z]` characters. -/
def letterCount (text : String) : Nat :=
  (text.toList.filter Char.isAlpha).length

/-- `is_scale_artifact` (ppt_service.py:673): digit-run pattern with at most 2
letters, or ≥5 words of which ≥80% are short all-caps tokens (the 0.8 factor
is computed exactly; the source's float multiply rounds identically on every
integer length that can occur here). -/
def is_scale_artifact (text : String) : Bool :=
  (hasScaleDigitRun text && letterCount text ≤ 2) ||
  (let words := pySplitWs text
   words.length ≥ 5 &&
     (let shortWords := (words.filter (fun w => w.length ≤ 3 && pyIsUpper w)).length
      (shortWords : ℚ) ≥ (words.length : ℚ) * (4 / 5)))

/-- `re.match(r'^[a-z]{1,3}\.\s*$', text)`. -/
def matchShortLowerDot (text : String) : Bool :=
  let cs := text.toList
  let run := cs.takeWhile Char.isLower
  let rest := cs.drop run.length
  1 ≤ run.length && run.length ≤ 3 &&
    (match rest with
     | '.' :: tl => tl.all isPyWs
     | _ => false)

/-- `is_garbage_line` (ppt_service.py:690): short lines dominated by special
characters, or a 1-3-lowercase-letters-plus-period pattern. -/
def is_garbage_line (text : String) : Bool :=
  if text.length < 15 then
    let letters := letterCount text
    let special := (text.toList.filter
      (fun c => !(c.isAlpha || c.isDigit || isPyWs c))).length
    if special > letters then true
    else matchShortLowerDot text
  else false

/-- `is_bullet` (ppt_service.py:705): `^[+#\-•*◦▪▫]\s+|^[a-z]\s+`. -/
def is_bullet (text : String) : Bool :=
  match text.toList with
  | c :: d :: _ => (c ∈ ['+', '#', '-', '•', '*', '◦', '▪', '▫'] || c.isLower) && isPyWs d
  | _ => false

/-- `re.match(r'^\d+\s*-\s*', text)` (the trailing `\s*` always matches). -/
def matchNumDash (text : String) : Bool :=
  let cs := text.toList
  let ds := cs.takeWhile Char.isDigit
  let rest := (cs.drop ds.length).dropWhile isPyWs
  !ds.isEmpty &&
    (match rest with
     | '-' :: _ => true
     | _ => false)

/-- The title keyword list of ppt_service.py:715. -/
def titleKeywords : List String := ["(Option)", "(Scale)", "(Question)", "Intro"]

/-- `is_title` (ppt_service.py:709). -/
def is_title (text : String) : Bool :=
  matchNumDash text || titleKeywords.any (fun kw => pyContains kw text)

/-- Does the line contain `[a-zA-ZÀ-ÿ0-9]`? -/
def hasWordChar (text : String) : Bool :=
  text.toList.any (fun c =>
    c.isAlpha || c.isDigit || (0xC0 ≤ c.toNat ∧ c.toNat ≤ 0xFF))

/-- First filtering pass of `ocr_extract_text` (ppt_service.py:719-737):
keep blank lines, drop no-word-char lines, scale artifacts and garbage,
keep everything else stripped. -/
def ocrFirstPass (raw : String) : List String :=
  (pySplitlines raw).foldl
    (fun acc ln =>
      let stripped := pyStrip ln
      if stripped = "" then acc ++ [""]
      else if !hasWordChar stripped then acc
      else if is_scale_artifact stripped then acc
      else if is_garbage_line stripped then acc
      else acc ++ [stripped])
    []

/-- The `looks_like_list` look-ahead for short quoted options
(ppt_service.py:792-797). -/
def quoteListAhead (cleaned : List String) (j : Nat) : Bool :=
  (List.range 3).any (fun d =>
    let k := j + d
    k < cleaned.length &&
      (let lk := cleaned.getD k ""
       lk ≠ "" && (pyStartsWith lk "\"" || (lk.length < 60 && k = j))))

/-- The `looks_like_list` look-ahead for short uppercase-start lines
(ppt_service.py:817-821). -/
def shortListAhead (cleaned : List String) (j : Nat) : Bool :=
  (List.range 3).any (fun d =>
    let k := j + d
    k < cleaned.length &&
      (let lk := cleaned.getD k ""
       lk ≠ "" && lk.length < 60))

/-- First character of a nonempty string (the lines fed to this are nonempty). -/
def headChar (s : String) : Char := s.toList.headD ' '

/-- The paragraph-join inner loop of the (discarded) smart-grouping pass
(ppt_service.py:770-826): starting at `j`, absorb continuation lines into
`paragraph`; returns the grown paragraph and the index where it stopped. -/
def ocrJoinLoop (cleaned : List String) : Nat → Nat → List String → List String × Nat
  | 0, j, paragraph => (paragraph, j)
  | fuel + 1, j, paragraph =>
    if j < cleaned.length then
      let next_line := cleaned.getD j ""
      if next_line = "" then (paragraph, j)
      else if is_title next_line || is_bullet next_line then (paragraph, j)
      else
        let current_text := pyJoin " " paragraph
        if !(pyEndsWithAny (pyRstrip current_text) [".", "!", "?", ":"]) then
          if pyStartsWith next_line "\"" && next_line.length < 80 && quoteListAhead cleaned j then
            (paragraph, j)
          else ocrJoinLoop cleaned fuel (j + 1) (paragraph ++ [next_line])
        else if (headChar next_line).isLower || headChar next_line ∈ ['"', ',', ';', ':'] then
          ocrJoinLoop cleaned fuel (j + 1) (paragraph ++ [next_line])
        else if (headChar next_line).isUpper && next_line.length > 60 then
          (paragraph, j)
        else if (headChar next_line).isUpper && next_line.length < 60 &&
            shortListAhead cleaned j then
          (paragraph, j)
        else ocrJoinLoop cleaned fuel (j + 1) (paragraph ++ [next_line])
    else (paragraph, j)

/-- Outer loop of the smart-grouping pass (ppt_service.py:739-830). -/
def ocrGroupLoop (cleaned : List String) : Nat → Nat → List String → List String
  | 0, _, acc => acc
  | fuel + 1, i, acc =>
    if i < cleaned.length then
      let line := cleaned.getD i ""
      if line = "" then ocrGroupLoop cleaned fuel (i + 1) (acc ++ [""])
      else if is_title line then
        let acc' := if acc ≠ [] ∧ acc.getLastD "" ≠ "" then acc ++ [""] else acc
        ocrGroupLoop cleaned fuel (i + 1) (acc' ++ [line])
      else if is_bullet line then ocrGroupLoop cleaned fuel (i + 1) (acc ++ [line])
      else if i > 0 && pyEndsWith (cleaned.getD (i - 1) "") "?" && line.length < 80 then
        ocrGroupLoop cleaned fuel (i + 1) (acc ++ [line])
      else
        let (paragraph, j) := ocrJoinLoop cleaned (cleaned.length + 1) (i + 1) [line]
        ocrGroupLoop cleaned fuel j (acc ++ [pyJoin " " paragraph])
    else acc

/-- The smart-grouping pass result (ppt_service.py:739-830).  In the source
this value is assigned to `lines_out` and then immediately overwritten by the
reassignment at line 832; it never reaches the function's return value. -/
def ocr_smart_grouped (cleaned : List String) : List String :=
  ocrGroupLoop cleaned (cleaned.length + 1) 0 []

/-- The final pass (ppt_service.py:832-853), which recomputes `lines_out`
from `raw` with filtering only — no paragraph joining. -/
def ocrFinalPass (raw : String) : List String :=
  (pySplitlines raw).foldl
    (fun acc ln =>
      let stripped := pyStrip ln
      if stripped = "" then acc ++ [""]
      else if !hasWordChar stripped then acc
      else if is_scale_artifact stripped then acc
      else if is_garbage_line stripped then acc
      else acc ++ [ln])
    []

/-- `ocr_extract_text` (ppt_service.py:623) from the pytesseract output text
onwards: collapse blanks, strip emoji, run the filtering pass, run the
smart-grouping pass (whose result the source then discards by reassigning
`lines_out` at line 832), and return the re-filtered, unjoined lines. -/
def ocr_extract_text_model (tessText : String) : String :=
  let raw := emojiStrip (ocrCollapse tessText)
  let cleaned := ocrFirstPass raw
  let _grouped := ocr_smart_grouped cleaned
  let lines_out := ocrFinalPass raw
  pyStrip (pyJoin "\n" lines_out)

/-! ### Section 7: `post_process_translation` (ppt_service.py:1021) and
`build_text_structure` (ppt_service.py:985) -/

/-- `^[+#\-•*◦▪▫$]\s+` (the bullet class used by `post_process_translation`,
which adds `$` to the glyph set and has no lowercase-letter alternative). -/
def pp_bullet (text : String) : Bool :=
  match text.toList with
  | c :: d :: _ => (c ∈ ['+', '#', '-', '•', '*', '◦', '▪', '▫', '$']) && isPyWs d
  | _ => false

/-- Keyword alternatives of the signature regex. -/
def sigKeywords : List String := ["contact", "representative", "team", "support"]

/-- `re.search(r',\s+[A-Z][a-z]+.*(?:contact|representative|team|support)$',
line, re.IGNORECASE)`: a comma, one-or-more whitespace, at least two letters
(IGNORECASE makes `[A-Z][a-z]+` case-blind), anything, and one of the
keywords at the very end.  Decided by brute-force search over the match
positions. -/
def is_signature (line : String) : Bool :=
  let cs := line.toList
  let n := cs.length
  sigKeywords.any (fun kw =>
    pyEndsWith (pyLower line) kw &&
    (let s := n - kw.length
     (List.range n).any (fun c =>
       cs.getD c ' ' = ',' &&
       (List.range n).any (fun m0 =>
         let m := m0 + 1
         (List.range m).all (fun t => isPyWs (cs.getD (c + 1 + t) '?')) &&
         (cs.getD (c + m + 1) '?').isAlpha &&
         (cs.getD (c + m + 2) '?').isAlpha &&
         c + m + 3 ≤ s))))

/-- First pass of `post_process_translation` (ppt_service.py:1028-1087):
join a line with the next when the line lacks terminal punctuation and the
next is not a new section. -/
def ppFirstLoop (lines : List String) : Nat → Nat → List String → List String
  | 0, _, acc => acc
  | fuel + 1, i, acc =>
    if i < lines.length then
      let line := pyStrip (lines.getD i "")
      if line = "" then ppFirstLoop lines fuel (i + 1) (acc ++ [""])
      else if i + 1 < lines.length then
        let next_line := pyStrip (lines.getD (i + 1) "")
        if next_line ≠ "" then
          let is_next_title := matchNumDash next_line
          let is_next_bullet := pp_bullet next_line
          let is_next_option := pyStartsWith next_line "\"" && next_line.length < 80
          let has_title_keyword := titleKeywords.any (fun kw => pyContains kw next_line)
          let should_not_join :=
            is_next_title || is_next_bullet || is_next_option || has_title_keyword ||
              is_signature line
          if !(pyEndsWithAny line [".", "!", "?", ":"]) && !should_not_join then
            if (headChar next_line).isLower || headChar next_line ∈ [',', ';'] then
              ppFirstLoop lines fuel (i + 2) (acc ++ [line ++ " " ++ next_line])
            else if line.length < 60 || next_line.length < 60 then
              ppFirstLoop lines fuel (i + 2) (acc ++ [line ++ " " ++ next_line])
            else ppFirstLoop lines fuel (i + 1) (acc ++ [line])
          else ppFirstLoop lines fuel (i + 1) (acc ++ [line])
        else ppFirstLoop lines fuel (i + 1) (acc ++ [line])
      else ppFirstLoop lines fuel (i + 1) (acc ++ [line])
    else acc

/-- The "option-like" test of the second pass (ppt_service.py:1116-1119). -/
def pp_option_like (s : String) : Bool :=
  pyStartsWith s "\"" || (s.length < 80 && !(pyEndsWithAny s ["?", ".", "!"]))

/-- Second pass of `post_process_translation` (ppt_service.py:1090-1127):
drop a blank line whose nearest nonempty neighbours are both bullets or both
options. -/
def ppSecondLoop (result : List String) : Nat → Nat → List String → List String
  | 0, _, acc => acc
  | fuel + 1, i, acc =>
    if i < result.length then
      let line := result.getD i ""
      if line = "" then
        match (result.take i).reverse.find? (· != ""), (result.drop (i + 1)).find? (· != "") with
        | some p, some nx =>
          if (pp_bullet p && pp_bullet nx) || (pp_option_like p && pp_option_like nx) then
            ppSecondLoop result fuel (i + 1) acc
          else ppSecondLoop result fuel (i + 1) (acc ++ [line])
        | _, _ => ppSecondLoop result fuel (i + 1) (acc ++ [line])
      else ppSecondLoop result fuel (i + 1) (acc ++ [line])
    else acc

/-- `post_process_translation` (ppt_service.py:1021). -/
def post_process_translation (text : String) : String :=
  let lines := pySplitlines text
  let result := ppFirstLoop lines (lines.length + 1) 0 []
  let final := ppSecondLoop result (result.length + 1) 0 []
  pyJoin "\n" final

/-- `build_text_structure` (ppt_service.py:985): one default-formatted
paragraph block per line, consecutive blank lines collapsed to one. -/
def build_text_structure (translated_text : String) : List TextBlockD :=
  ((pySplitlines translated_text).foldl
    (fun (acc : List TextBlockD × Bool) line =>
      let stripped := pyStrip line
      if stripped = "" then
        if acc.2 then acc
        else (acc.1 ++ [⟨"paragraph", stripped, stripped, ⟨false, 0, "black", "left"⟩, false⟩],
              true)
      else (acc.1 ++ [⟨"paragraph", stripped, stripped, ⟨false, 0, "black", "left"⟩, false⟩],
            false))
    ([], false)).1

/-! ### Section 8: the OpenRouter HTTP retry loop (ppt_service.py:557-576 and
1221-1245) -/

/-- One HTTP exchange as seen by the adapters: a completed response (status,
the token counts of its `usage` object, and the `choices[0].message.content`
text — for non-2xx responses `content` stands for `response.text`), or an
exception raised by `requests.post` itself. -/
inductive HResp where
  | ok (status : Nat) (usageIn usageOut : Nat) (content : String)
  | netTimeout
  | netConnError
deriving DecidableEq, Repr

/-- How the retry loop ended. -/
inductive ROutcome where
  | success (status usageIn usageOut : Nat) (content : String)
  | httpError (status : Nat) (body : String)
  | timeoutRaised
  | connRaised
deriving DecidableEq, Repr

/-- Trace of one run of the retry loop: requests actually made, the sleeps
performed between attempts (seconds), the final outcome, and the body of the
most recent completed response (what `response.text` holds when a later
attempt raises). -/
structure RetryTrace where
  requests : Nat
  waits : List Nat
  outcome : ROutcome
  prevBody : Option String
deriving DecidableEq, Repr

/-- The retry loop shared (textually duplicated) by `call_openrouter_vision`
(ppt_service.py:557-576) and `call_ocr_openrouter` (ppt_service.py:1221-1245):
`for attempt in range(max_retries + 1)`, sleep `backoff ** (attempt + 1)` and
retry on HTTP 429 while attempts remain, `raise_for_status()` (abort) on any
other 4xx/5xx, break on success.  `oracle n` is the response to the n-th
request (0-based). -/
def retryGo (oracle : Nat → HResp) (maxRetries backoff : Nat) :
    Nat → Nat → List Nat → Option String → RetryTrace
  | 0, attempt, waits, prev =>
    -- unreachable with the fuel the entry point supplies
    ⟨attempt, waits.reverse, .connRaised, prev⟩
  | fuel + 1, attempt, waits, prev =>
    match oracle attempt with
    | .netTimeout => ⟨attempt + 1, waits.reverse, .timeoutRaised, prev⟩
    | .netConnError => ⟨attempt + 1, waits.reverse, .connRaised, prev⟩
    | .ok s uin uout content =>
      if s = 429 ∧ attempt < maxRetries then
        retryGo oracle maxRetries backoff fuel (attempt + 1)
          (backoff ^ (attempt + 1) :: waits) (some content)
      else if 400 ≤ s ∧ s < 600 then
        ⟨attempt + 1, waits.reverse, .httpError s content, some content⟩
      else ⟨attempt + 1, waits.reverse, .success s uin uout content, some content⟩

/-- The loop as instantiated in the source: `max_retries = 3`, `backoff = 2`. -/
def openrouter_retry (oracle : Nat → HResp) : RetryTrace :=
  retryGo oracle 3 2 4 0 [] none

/-- The retry policy a trace of `openrouter_retry` satisfies: at most 4
requests (the initial call plus up to 3 retries); the k-th wait (0-based) is
`2 ^ (k + 1)` seconds — that is, `2 ^ attempt` for attempts numbered 1, 2, 3;
every request that was followed by another had been answered HTTP 429; a
response with any other 4xx/5xx status ends the call right there (the request
it answered is the last one) with an HTTPError outcome; a request answered
HTTP 429 while retry budget remains (requests 0, 1, 2) is ALWAYS followed by
another request; and a request answered HTTP 429 with the budget exhausted
(request 3) is the last, ending the call with the 429 HTTPError — i.e. a 429
really is retried, and retried exactly 3 times before giving up. -/
def RetrySpec (oracle : Nat → HResp) (t : RetryTrace) : Prop :=
  t.requests ≤ 4 ∧
  t.waits = (List.range (t.requests - 1)).map (fun k => 2 ^ (k + 1)) ∧
  (∀ i, i + 1 < t.requests → ∃ u v c, oracle i = .ok 429 u v c) ∧
  (∀ i s u v c, i < t.requests → oracle i = .ok s u v c → 400 ≤ s → s < 600 → s ≠ 429 →
    t.requests = i + 1 ∧ t.outcome = .httpError s c) ∧
  (∀ i u v c, i < t.requests → oracle i = .ok 429 u v c → i < 3 → i + 1 < t.requests) ∧
  (∀ i u v c, i < t.requests → oracle i = .ok 429 u v c → ¬ i < 3 →
    t.requests = i + 1 ∧ t.outcome = .httpError 429 c)

/-! ### Section 9: `call_openrouter_vision` (ppt_service.py:532) and
`call_ocr_openrouter` (ppt_service.py:1132) -/

/-- `call_openrouter_vision` (ppt_service.py:532), from the HTTP exchange
onwards.  Exception messages embed the failure kind; their exact interpolated
text (`str(e)`) is abbreviated, which no claim depends on. -/
def call_openrouter_vision_model (oracle : Nat → HResp) : Option ResultDictD :=
  let t := openrouter_retry oracle
  match t.outcome with
  | .timeoutRaised =>
    some (errorResult
      "API timeout - the translation service took too long to respond. Please try again.")
  | .connRaised =>
    some (errorResult
      "Connection error - unable to reach the translation service. Please check your internet connection.")
  | .httpError _ _ => some (errorResult "Translation error: HTTPError")
  | .success _ uin uout content =>
    let json_text :=
      if pyContains "```json" content then
        let start : Int := pyFind content "```json" + 7
        let stop : Int := pyFindFrom content "```" start.toNat
        pyStrip (pySlice content start stop)
      else pyStrip content
    match json_loads json_text with
    | none => some (errorResult "Translation error: JSONDecodeError")
    | some j =>
      match _parse_vision_response j with
      | .typeErr => some (errorResult "Translation error: TypeError")
      | .ok none => none
      | .ok (some r) => some { r with usage := some ⟨uin, uout, uin + uout⟩ }

/-- Result of `call_ocr_openrouter`, with the call counters the claims are
about: text-LLM HTTP requests issued and offline-MT invocations. -/
structure OcrCallOut where
  result : Option ResultDictD
  llm_requests : Nat
  offline_calls : Nat
  waits : List Nat
deriving DecidableEq, Repr

/-- Intermediate state after the text-LLM stage of `call_ocr_openrouter`. -/
structure OcrStage where
  openrouter_error : Option String
  translated_text : Option String
  translation_method : Option String
  translation_model : Option String
deriving DecidableEq, Repr

/-- `call_ocr_openrouter` (ppt_service.py:1132), from the OCR text onwards:
text-LLM stage (when a key is configured), then the fallback chain —
passthrough when `source_lang == target_lang`, otherwise offline neural MT.
`rawText` is the value `ocr_extract_text` returned for the slide's image;
`offlineOracle` is what `translate_offline` would return (`none` = failure). -/
def call_ocr_openrouter_model (rawText srcLang tgtLang : String)
    (apiKey : Option String) (model : String) (oracle : Nat → HResp)
    (offlineOracle : Option String) : OcrCallOut :=
  if rawText = "" then ⟨none, 0, 0, []⟩
  else
    let stage : OcrStage × Nat × List Nat :=
      if pyTruthyOptStr apiKey then
        let t := openrouter_retry oracle
        match t.outcome with
        | .success _ _ _ content =>
          let raw_response := pyStrip content
          if raw_response ≠ "" then
            (⟨none, some (post_process_translation raw_response), some "openrouter",
              some model⟩, t.requests, t.waits)
          else (⟨some "Empty response from model", none, none, none⟩, t.requests, t.waits)
        | .httpError _ body =>
          (⟨some (if body ≠ "" then body else "HTTPError"), none, none, none⟩,
           t.requests, t.waits)
        | .timeoutRaised =>
          (⟨some (match t.prevBody with
                  | some b => if b ≠ "" then b else "Timeout"
                  | none => "Timeout"), none, none, none⟩, t.requests, t.waits)
        | .connRaised =>
          (⟨some (match t.prevBody with
                  | some b => if b ≠ "" then b else "ConnectionError"
                  | none => "ConnectionError"), none, none, none⟩, t.requests, t.waits)
      else (⟨some "No API key configured", none, none, none⟩, 0, [])
    let st := stage.1
    let reqs := stage.2.1
    let ws := stage.2.2
    let fallback : Option OcrStage × Nat :=
      if !pyTruthyOptStr st.translated_text then
        if srcLang = tgtLang then
          (some { st with translated_text := some rawText,
                          translation_method := some "passthrough",
                          translation_model := some "passthrough" }, 0)
        else
          match offlineOracle with
          | some t =>
            (some { st with translated_text := some t,
                            translation_method := some "offline",
                            translation_model :=
                              some ("Helsinki-NLP/opus-mt-" ++ srcLang ++ "-" ++ tgtLang) }, 1)
          | none => (none, 1)
      else (some st, 0)
    match fallback.1 with
    | none => ⟨none, reqs, fallback.2, ws⟩
    | some st2 =>
      match st2.translated_text with
      | none => ⟨none, reqs, fallback.2, ws⟩
      | some t =>
        if t = "" ∨ pyStrip t = "" then ⟨none, reqs, fallback.2, ws⟩
        else
          ⟨some ⟨some rawText, some t, some (.flat (build_text_structure t)), none,
                 st2.translation_method, st2.translation_model, st2.openrouter_error, none⟩,
           reqs, fallback.2, ws⟩

/-! ### Section 10: `process_ppt_slide` (ppt_service.py:1551) and the
`create_translated_ppt` orchestrator loop (ppt_service.py:1605) -/

/-- The external inputs a single slide's processing can consume: the vision
HTTP exchanges, the Claude response texts, the pytesseract output for the
slide's image, the text-LLM HTTP exchanges of the OCR chain, and the offline
translator's answer. -/
structure SlideOracles where
  visionOracle : Nat → HResp
  claudeResponseText : String
  claudeUsageIn : Nat
  claudeUsageOut : Nat
  claudeRetryText : String
  tessText : String
  ocrLlmOracle : Nat → HResp
  offlineOracle : Option String

/-- `process_ppt_slide` (ppt_service.py:1551): dispatch on the provider
string; for `"openrouter"`, fall back to the OCR chain with the API key
withheld only when the vision call returned `None` (error dicts are passed
through unchanged, see lines 1583 and 1594-1596). -/
def process_ppt_slide_model (provider srcLang tgtLang : String) (apiKey : Option String)
    (model : String) (hasImage : Bool) (o : SlideOracles) : Option ResultDictD :=
  if !hasImage then none
  else if provider = "claude" then
    (call_claude_vision_model o.claudeResponseText o.claudeUsageIn o.claudeUsageOut
      o.claudeRetryText).result
  else if provider = "openrouter" then
    match call_openrouter_vision_model o.visionOracle with
    | none =>
      (call_ocr_openrouter_model (ocr_extract_text_model o.tessText) srcLang tgtLang
        none model o.ocrLlmOracle o.offlineOracle).result
    | some r => some r
  else if provider = "ocr_free" then
    (call_ocr_openrouter_model (ocr_extract_text_model o.tessText) srcLang tgtLang
      apiKey model o.ocrLlmOracle o.offlineOracle).result
  else none

/-- A per-slide entry of `stats["slide_methods"]`. -/
structure SlideInfoD where
  slide : Nat
  method : Option String
  model : Option String
  error : Option String
deriving DecidableEq, Repr

/-- The `stats` dict of `create_translated_ppt` (ppt_service.py:1640-1652);
`total_cost` is carried exactly as a rational. -/
structure StatsD where
  total_slides : Nat
  selected_slides_count : Nat
  processed_slides : Nat
  skipped_slides : Nat
  failed_slides : Nat
  slide_methods : List SlideInfoD
  warnings : List String
  total_input_tokens : Nat
  total_output_tokens : Nat
  total_cost : ℚ
deriving DecidableEq, Repr

/-- What the per-slide `try` block yielded for a slide: the value
`process_ppt_slide` returned, or an exception raised inside the block. -/
inductive SlideOutcomeM where
  | res (r : Option ResultDictD)
  | exc (msg : String)

/-- One slide of the input deck as the orchestrator sees it: whether
`has_image_on_left` finds a qualifying image, and what processing it yields. -/
structure SlideSpecM where
  hasImage : Bool
  outcome : SlideOutcomeM

/-- Truthiness of `result.get("structure")` (a present but empty list is
falsy). -/
def structTruthy : Option StructureD → Bool
  | some (.lines l) => !l.isEmpty
  | some (.flat b) => !b.isEmpty
  | none => false

/-- The Claude price table of ppt_service.py:1757-1764 (dollars per million
tokens, keyed by model name). -/
def claudePrices (model : String) : ℚ × ℚ :=
  if model = "claude-3-haiku-20240307" then (1, 5) else (3, 15)

/-- The processed-slide branch of the orchestrator (ppt_service.py:1749-1799):
increment `processed_slides`, accumulate usage and (for the claude provider)
cost, and record the slide's method. -/
def processedBranch (provider model : String) (stats : StatsD) (idx : Nat)
    (r : ResultDictD) : StatsD :=
  let stats1 := { stats with processed_slides := stats.processed_slides + 1 }
  let stats2 :=
    match r.usage with
    | some u =>
      let s := { stats1 with
        total_input_tokens := stats1.total_input_tokens + u.input_tokens,
        total_output_tokens := stats1.total_output_tokens + u.output_tokens }
      if provider = "claude" then
        let p := claudePrices model
        { s with total_cost := s.total_cost +
            ((u.input_tokens : ℚ) / 1000000 * p.1 + (u.output_tokens : ℚ) / 1000000 * p.2) }
      else s
    | none => stats1
  let info : SlideInfoD :=
    if provider = "ocr_free" then
      ⟨idx + 1, some (r.translation_method.getD "unknown"), r.translation_model,
       r.openrouter_error⟩
    else if provider = "claude" then ⟨idx + 1, some "claude_vision", some model, none⟩
    else if provider = "openrouter-vision" then
      ⟨idx + 1, some "openrouter_vision", some model, none⟩
    else ⟨idx + 1, none, none, none⟩
  { stats2 with slide_methods := stats2.slide_methods ++ [info] }

/-- The failed-slide branch (ppt_service.py:1800-1817 and the exception
handler 1819-1838): increment `failed_slides`, append a warning, record the
slide with method `"unknown"`. -/
def failBranch (stats : StatsD) (idx : Nat) (msg : String) : StatsD :=
  { stats with
    failed_slides := stats.failed_slides + 1,
    warnings := stats.warnings ++ ["Slide " ++ toString (idx + 1) ++ ": " ++ msg],
    slide_methods := stats.slide_methods ++ [⟨idx + 1, some "unknown", none, some msg⟩] }

/-- The per-slide loop of `create_translated_ppt` (ppt_service.py:1662-1838):
unselected slides and slides without a qualifying image are skipped; a result
with a truthy `structure` is processed; anything else fails the slide; an
exception whose text contains "cancelled by user" is re-raised (aborting the
pipeline, modelled as `none`), any other exception fails the slide. -/
def pipelineLoop (provider model : String) (selected : List Nat) :
    List SlideSpecM → Nat → StatsD → Option StatsD
  | [], _, stats => some stats
  | s :: rest, idx, stats =>
    if !(selected.contains idx) then
      pipelineLoop provider model selected rest (idx + 1)
        { stats with skipped_slides := stats.skipped_slides + 1 }
    else if !s.hasImage then
      pipelineLoop provider model selected rest (idx + 1)
        { stats with skipped_slides := stats.skipped_slides + 1 }
    else
      match s.outcome with
      | .exc msg =>
        if pyContains "cancelled by user" (pyLower msg) then none
        else pipelineLoop provider model selected rest (idx + 1) (failBranch stats idx msg)
      | .res result =>
        match result with
        | some r =>
          if structTruthy r.structure_kv then
            pipelineLoop provider model selected rest (idx + 1)
              (processedBranch provider model stats idx r)
          else
            pipelineLoop provider model selected rest (idx + 1)
              (failBranch stats idx (r.error.getD "No result from API (unknown error)"))
        | none =>
          pipelineLoop provider model selected rest (idx + 1)
            (failBranch stats idx "No result from API (unknown error)")

/-- `create_translated_ppt` (ppt_service.py:1605): the statistics produced by
a full run over the deck (`none` when a cancellation exception unwound the
pipeline). -/
def create_translated_ppt_model (provider model : String) (selected : List Nat)
    (slides : List SlideSpecM) : Option StatsD :=
  pipelineLoop provider model selected slides 0
    ⟨slides.length, selected.length, 0, 0, 0, [], [], 0, 0, 0⟩

/-- The usage a slide contributes to the cost sum: present only when the slide
is processed successfully (truthy structure) and its result carries usage. -/
def slideUsage (s : SlideSpecM) : Option UsageD :=
  match s.outcome with
  | .res (some r) => if structTruthy r.structure_kv then r.usage else none
  | _ => none

/-- Cost formula following the spec's words (§4.7 and §8 of spec.md): summed
over successfully processed slides,
`input_tokens/1e6 * input_price + output_tokens/1e6 * output_price`, the
price pair keyed by model name. -/
def specCostGo (model : String) (selected : List Nat) : List SlideSpecM → Nat → ℚ
  | [], _ => 0
  | s :: rest, idx =>
    (if selected.contains idx ∧ s.hasImage then
       match slideUsage s with
       | some u =>
         let p := claudePrices model
         (u.input_tokens : ℚ) / 1000000 * p.1 + (u.output_tokens : ℚ) / 1000000 * p.2
       | none => 0
     else 0) + specCostGo model selected rest (idx + 1)

/-- Spec-side total cost of a deck (see `specCostGo`). -/
def spec_claude_cost (model : String) (selected : List Nat)
    (slides : List SlideSpecM) : ℚ :=
  specCostGo model selected slides 0

/-! ### Section 11: `reduce_font_if_overflow` (ppt_service.py:1333) -/

/-- A text run of a rendered shape: optional font size in points (exact
rational; `none` = size unset) and its text. -/
structure FRun where
  size : Option ℚ
  rtext : String
deriving DecidableEq, Repr

/-- A paragraph of a text frame. -/
structure FPara where
  runs : List FRun
deriving DecidableEq, Repr

/-- python-pptx `paragraph.text`: concatenation of the run texts. -/
def FPara.text (p : FPara) : String := pyJoin "" (p.runs.map (·.rtext))

/-- A shape's text frame. -/
structure TFrame where
  paras : List FPara
deriving DecidableEq, Repr

/-- Truthiness of `run.font.size` (a `Length` is an `int` subclass: `None`
and zero are falsy). -/
def sizeTruthy : Option ℚ → Bool
  | none => false
  | some q => q ≠ 0

/-- The `smallest_font` scan (ppt_service.py:1357-1363), starting from 100. -/
def smallest_font (f : TFrame) : ℚ :=
  f.paras.foldl
    (fun acc p => p.runs.foldl
      (fun acc r =>
        match r.size with
        | some s => if sizeTruthy r.size then min acc s else acc
        | none => acc)
      acc)
    100

/-- `num_paragraphs` (ppt_service.py:1370). -/
def num_paragraphs (f : TFrame) : Nat :=
  (f.paras.filter (fun p => pyStrip p.text ≠ "")).length

/-- `total_chars` (ppt_service.py:1371). -/
def total_chars (f : TFrame) : Nat :=
  (f.paras.map (fun p => p.text.length)).sum

/-- The overflow heuristic `needs_reduction` (ppt_service.py:1373-1380);
`avg_chars_per_para` is true division, computed exactly. -/
def needs_reduction (f : TFrame) : Bool :=
  let np := num_paragraphs f
  let tc := total_chars f
  let avg : ℚ := (tc : ℚ) / (max np 1 : ℚ)
  np > 30 || tc > 2500 || (np > 20 && avg > 60)

/-- One run's reduction step (ppt_service.py:1386-1391): runs with a truthy
size strictly above the floor are set to `max(min_font_size, size - 0.5)`. -/
def reduceRun (minSize : ℚ) (r : FRun) : FRun :=
  match r.size with
  | some s =>
    if sizeTruthy r.size ∧ s > minSize then ⟨some (max minSize (s - 1/2)), r.rtext⟩ else r
  | none => r

/-- Reduce every run of the frame. -/
def reduceAll (minSize : ℚ) (f : TFrame) : TFrame :=
  ⟨f.paras.map (fun p => ⟨p.runs.map (reduceRun minSize)⟩)⟩

/-- The `reduced` flag: would any run actually shrink?  (When no run
qualifies the source breaks out of the loop with the frame unchanged.) -/
def anyReducible (minSize : ℚ) (f : TFrame) : Bool :=
  f.paras.any (fun p => p.runs.any (fun r =>
    match r.size with
    | some s => sizeTruthy r.size && s > minSize
    | none => false))

/-- The iteration trace of the font-fit loop of `reduce_font_if_overflow`
(ppt_service.py:1355-1396) on one text frame: the successive frame states,
head = initial.  Stops when the smallest truthy font has reached the floor,
when the heuristic reports no overflow, or when no run can shrink. -/
def reduce_font_trace (minSize : ℚ) : Nat → TFrame → List TFrame
  | 0, f => [f]
  | k + 1, f =>
    if smallest_font f ≤ minSize then [f]
    else if !needs_reduction f then [f]
    else if !anyReducible minSize f then [f]
    else f :: reduce_font_trace minSize k (reduceAll minSize f)

/-- `reduce_font_if_overflow` (ppt_service.py:1333) over the text shapes of a
slide: frames with no nonblank text are skipped, every other frame runs the
loop to its final state (margins/word-wrap adjustments carry no font sizes
and are omitted). -/
def reduce_font_if_overflow (frames : List TFrame) (maxIter : Nat) (minSize : ℚ) :
    List TFrame :=
  frames.map (fun f =>
    if f.paras.any (fun p => pyStrip p.text ≠ "") then
      (reduce_font_trace minSize maxIter f).getLastD f
    else f)

/-- The size at run position `(i, j)` of a frame (`none` when the position
does not exist or the run has no size). -/
def sizeAt (f : TFrame) (i j : Nat) : Option ℚ :=
  (f.paras.get? i).bind (fun p => (p.runs.get? j).bind (fun r => r.size))

/-- Relation between consecutive font-fit states: every run position is
either left unchanged or assigned a strictly smaller size that is still at
least the configured floor. -/
def fontStep (minSize : ℚ) (A B : TFrame) : Prop :=
  ∀ i j, sizeAt B i j = sizeAt A i j ∨
    ∃ p q, sizeAt A i j = some p ∧ sizeAt B i j = some q ∧ q < p ∧ minSize ≤ q

/-! ### Section 12: `apply_formatting_from_structure` (ppt_service.py:1407) -/

/-- The `color_map` of ppt_service.py:1430-1438. -/
def color_map : List (String × (Nat × Nat × Nat)) :=
  [("green", (46, 125, 50)), ("blue", (25, 118, 210)), ("red", (211, 47, 47)),
   ("orange", (245, 124, 0)), ("black", (33, 33, 33)), ("grey", (117, 117, 117)),
   ("gray", (117, 117, 117))]

/-- `color_map.get(name, RGBColor(33, 33, 33))`. -/
def colorMapGet (k : String) : Nat × Nat × Nat :=
  ((color_map.find? (fun kv => kv.1 = k)).map (·.2)).getD (33, 33, 33)

/-- A rendered run: text, and the font attributes the source sets (`none` =
attribute never assigned, e.g. spacer runs get no bold/color). -/
structure RRun where
  rtext : String
  bold : Option Bool
  size : Option Int
  fontName : Option String
  color : Option (Nat × Nat × Nat)
deriving DecidableEq, Repr

/-- A rendered paragraph. -/
structure RPara where
  alignment : Option String
  runs : List RRun
deriving DecidableEq, Repr

/-- `set_para_style` (ppt_service.py:1443-1450): normalise the alignment. -/
def set_align (a : String) : String :=
  if a = "center" then "center" else if a = "right" then "right" else "left"

/-- `write_run` (ppt_service.py:1452-1466): strip trailing newlines; skip the
run when nothing remains; otherwise emit a run with the block's bold/size,
Calibri, and the block's color — where red without bold is coerced to black
before the `color_map` lookup. -/
def write_run_mk (text : String) (f : FormattingSpec) (base : Int) : Option RRun :=
  let clean := pyRstripChar '\n' text
  if clean = "" then none
  else
    let is_bold := f.bold
    let color_name0 := pyLower f.color
    let color_name := if color_name0 = "red" ∧ is_bold = false then "black" else color_name0
    some ⟨clean, some is_bold, some (base + f.size_relative), some "Calibri",
          some (colorMapGet color_name)⟩

/-- Renderer state: the closed paragraphs, the currently open (last)
paragraph, and `para_idx`. -/
structure RState where
  finished : List RPara
  cur : RPara
  para_idx : Nat

/-- `text_frame.add_paragraph()`: close the current paragraph, open a new
empty one. -/
def rAddPara (st : RState) : RState :=
  ⟨st.finished ++ [st.cur], ⟨none, []⟩, st.para_idx⟩

/-- `p = text_frame.paragraphs[0] if para_idx == 0 else add_paragraph()`,
followed by `para_idx += 1` and `set_para_style(p, alignment)`. -/
def rOpenPara (st : RState) (alignment : String) : RState :=
  let st1 := if st.para_idx = 0 then st else rAddPara st
  { st1 with cur := { st1.cur with alignment := some (set_align alignment) },
             para_idx := st1.para_idx + 1 }

/-- Append a run to the open paragraph. -/
def rAddRun (st : RState) (r : RRun) : RState :=
  { st with cur := { st.cur with runs := st.cur.runs ++ [r] } }

/-- The first character of `text.lstrip("\n")`, for the punctuation test of
the inter-block space insertion. -/
def startsWithCloser (text : String) : Bool :=
  match (pyLstripChar '\n' text).toList with
  | c :: _ => c ∈ [' ', '.', ',', '!', '?', ':', ';', ')', ']']
  | [] => false

/-- The block loop of a content line (ppt_service.py:1494-1510): inter-block
space insertion, `write_run`, and a fresh paragraph after a block ending in a
newline unless it is the last block. -/
def renderBlocksGo (base : Int) (alignment : String) (total : Nat) :
    List TextBlockD → Nat → RState → RState
  | [], _, st => st
  | b :: rest, bIdx, st =>
    let text0 := b.translated
    let ends_with_newline := pyEndsWith text0 "\n"
    let is_last_block := bIdx + 1 = total
    let needSpace :=
      st.cur.runs ≠ [] ∧
      !(pyEndsWithAny ((st.cur.runs.getLastD ⟨"", none, none, none, none⟩).rtext)
          [" ", "\n"]) ∧
      !startsWithCloser text0
    let text := if needSpace then " " ++ text0 else text0
    let st1 :=
      match write_run_mk text b.formatting base with
      | some r => rAddRun st r
      | none => st
    let st2 :=
      -- `p = text_frame.add_paragraph(); para_idx += 1; set_para_style(p, alignment)`
      -- (`rOpenPara` takes the add_paragraph branch: para_idx is nonzero here)
      if ends_with_newline ∧ !is_last_block then rOpenPara st1 alignment
      else st1
    renderBlocksGo base alignment total rest (bIdx + 1) st2

/-- The spacer run of an empty line (ppt_service.py:1482-1485): a single
space, base font size, Calibri, no bold/color assignment. -/
def spacerRun (base : Int) : RRun := ⟨" ", none, some base, some "Calibri", none⟩

/-- One line of the line-based branch (ppt_service.py:1469-1510): an empty
`line_blocks` renders a spacer paragraph unless the previous paragraph is
already a spacer; a content line opens a paragraph and runs the block loop on
the blocks with nonempty `translated`. -/
def renderLine (base : Int) (st : RState) (line : LineEntryD) : RState :=
  let alignment := line.alignment
  if line.line_blocks.isEmpty then
    let last_is_spacer :=
      st.cur.runs.all (fun r => pyStrip r.rtext = "" || pyStrip r.rtext = " ")
    if last_is_spacer ∧ st.para_idx > 0 then st
    else rAddRun (rOpenPara st alignment) (spacerRun base)
  else
    let st1 := rOpenPara st alignment
    let active := line.line_blocks.filter (fun b => b.translated ≠ "")
    renderBlocksGo base alignment active.length active 0 st1

/-- The OCR-mode branch (ppt_service.py:1515-1549): one paragraph per block;
blank blocks emit an empty run with no bold/color; nonempty blocks emit a
stripped run with the same red-without-bold coercion as `write_run`. -/
def renderOcrGo (base : Int) : List TextBlockD → Nat → RState → RState
  | [], _, st => st
  | b :: rest, idx, st =>
    let text := b.translated
    let f := b.formatting
    let st1 := if idx = 0 then st else rAddPara st
    let st2 := { st1 with cur := { st1.cur with alignment := some (set_align f.alignment) } }
    let st3 :=
      if text = "" ∨ pyStrip text = "" then
        rAddRun st2 ⟨"", none, some base, some "Calibri", none⟩
      else
        let is_bold := f.bold
        let color_name0 := pyLower f.color
        let color_name :=
          if color_name0 = "red" ∧ is_bold = false then "black" else color_name0
        rAddRun st2 ⟨pyStrip text, some is_bold, some (base + f.size_relative),
                     some "Calibri", some (colorMapGet color_name)⟩
    renderOcrGo base rest (idx + 1) st3

/-- The fresh textbox: one empty paragraph, `para_idx = 0`. -/
def initialRState : RState := ⟨[], ⟨none, []⟩, 0⟩

/-- The paragraphs of a finished render. -/
def rFinish (st : RState) : List RPara := st.finished ++ [st.cur]

/-- `apply_formatting_from_structure` (ppt_service.py:1407): the line-based
branch when the structure is a nonempty "lines" list, the OCR branch when
`ocr_mode` is set; otherwise only the empty textbox paragraph remains. -/
def apply_formatting_from_structure (structure0 : StructureD) (base : Int)
    (ocr_mode : Bool) : List RPara :=
  match structure0 with
  | .lines (h :: t) => rFinish ((h :: t).foldl (renderLine base) initialRState)
  | .lines [] => rFinish initialRState
  | .flat items =>
    if ocr_mode then rFinish (renderOcrGo base items 0 initialRState)
    else rFinish initialRState

/-- All runs of a rendered structure. -/
def renderRuns (structure0 : StructureD) (base : Int) (ocr_mode : Bool) : List RRun :=
  ((apply_formatting_from_structure structure0 base ocr_mode).map RPara.runs).flatten

/-- The rendered-run invariant of the red-coercion claim: a run carrying the
red RGB was emitted with bold set to true. -/
def runOk (r : RRun) : Prop := r.color = some (211, 47, 47) → r.bold = some true

/-- `runOk` over a whole renderer state. -/
def stateOk (st : RState) : Prop :=
  (∀ p ∈ st.finished, ∀ r ∈ p.runs, runOk r) ∧ (∀ r ∈ st.cur.runs, runOk r)

/-! ### Section 13: concrete inputs used by the theorems below -/

/-- C3 counterexample oracle: the text-LLM answers HTTP 200 with "hola". -/
def c3_oracle : Nat → HResp := fun _ => .ok 200 0 0 "hola"

/-- C4 oracles: the vision provider answers HTTP 200 whose message content is
not JSON; the OCR chain inputs are well-formed and would succeed offline. -/
def c4_oracles : SlideOracles :=
  ⟨fun _ => .ok 200 0 0 "garbage", "", 0, 0, "", "Hola mundo buenos dias",
   fun _ => .ok 200 0 0 "", some "Hello world"⟩

/-- The slide result for the C4 failing input. -/
def c4_outcome : Option ResultDictD :=
  process_ppt_slide_model "openrouter" "es" "en" (some "sk-key")
    "google/gemini-flash-1.5" true c4_oracles

/-- The pipeline statistics for a one-slide deck on the C4 failing input. -/
def c4_run : Option StatsD :=
  create_translated_ppt_model "openrouter" "google/gemini-flash-1.5" [0]
    [⟨true, .res c4_outcome⟩]

/-- C4, second scenario: the vision provider answers parseable JSON that has
neither a "lines" nor a "blocks" key — the only shape that makes
`call_openrouter_vision` return `None` and hence triggers the fallback. -/
def c4b_oracles : SlideOracles :=
  ⟨fun _ => .ok 200 0 0 "\x7b\"foo\": 1\x7d", "", 0, 0, "", "Hola mundo buenos dias",
   fun _ => .ok 200 0 0 "", some "Hello world"⟩

/-- The slide result for the C4 fallback scenario. -/
def c4b_outcome : Option ResultDictD :=
  process_ppt_slide_model "openrouter" "es" "en" (some "sk-key")
    "google/gemini-flash-1.5" true c4b_oracles

/-- The pipeline statistics for the C4 fallback scenario. -/
def c4b_run : Option StatsD :=
  create_translated_ppt_model "openrouter" "google/gemini-flash-1.5" [0]
    [⟨true, .res c4b_outcome⟩]

/-- C6 witness oracle: a plain HTTP 500. -/
def c6_oracle : Nat → HResp := fun _ => .ok 500 0 0 "boom"

/-- C6 witness oracle: HTTP 429 on every request. -/
def c6b_oracle : Nat → HResp := fun _ => .ok 429 0 0 "slow down"

/-- C8 witness: a red bold block rendered through the line-based branch. -/
def c8_struct : StructureD :=
  .lines [⟨[⟨"paragraph", "x", "x", ⟨true, 3, "red", "left"⟩, true⟩], "left"⟩]

/-- C8 witness: red-without-bold formatting fed to `write_run`. -/
def c8_fmt_rednonbold : FormattingSpec := ⟨false, 0, "red", "left"⟩

/-- C9 witness: a claude vision result with fixed token counts. -/
def c9_result : ResultDictD :=
  ⟨some "", some "",
   some (.lines [⟨[⟨"paragraph", "x", "x", ⟨false, 0, "black", "left"⟩, true⟩], "left"⟩]),
   some ⟨1000000, 2000000, 3000000⟩, none, none, none, none⟩

/-- C9 witness deck: two slides, both processed. -/
def c9_slides : List SlideSpecM :=
  [⟨true, .res (some c9_result)⟩, ⟨true, .res (some c9_result)⟩]

/-- The statistics the C9 witness deck produces. -/
def c9_out : StatsD :=
  ⟨2, 2, 2, 0, 0,
   [⟨1, some "claude_vision", some "claude-3-haiku-20240307", none⟩,
    ⟨2, some "claude_vision", some "claude-3-haiku-20240307", none⟩],
   [], 2000000, 4000000, 22⟩

/-- C10 witness: a processed OCR-chain result. -/
def c10_result : ResultDictD :=
  ⟨some "y", some "y", some (.flat [⟨"paragraph", "y", "y", ⟨false, 0, "black", "left"⟩, false⟩]),
   none, some "offline", some "m", none, none⟩

/-- C10 witness deck: one processed, one image-less, one failed result, one
non-cancellation exception. -/
def c10_slides : List SlideSpecM :=
  [⟨true, .res (some c10_result)⟩, ⟨false, .res none⟩, ⟨true, .res none⟩, ⟨true, .exc "boom"⟩]

/-- The statistics the C10 witness deck produces. -/
def c10_out : StatsD :=
  ⟨4, 4, 1, 1, 2,
   [⟨1, some "offline", some "m", none⟩,
    ⟨3, some "unknown", none, some "No result from API (unknown error)"⟩,
    ⟨4, some "unknown", none, some "boom"⟩],
   ["Slide 3: No result from API (unknown error)", "Slide 4: boom"], 0, 0, 0⟩

/-- The empty deck's statistics (used to witness the price-table clause). -/
def c9_empty_out : StatsD := ⟨0, 0, 0, 0, 0, [], [], 0, 0, 0⟩

/-! ### Section 14: theorems -/

/-- C1: the claim states that when the Claude response is unparseable and the
bracket-balancing repair also fails, `call_claude_vision` issues exactly one
compact-prompt retry and returns its parsed result.  The code cannot do this:
the retry block evaluates `_create_compact_vision_prompt(source_lang,
target_lang)`, and neither name is bound in `call_claude_vision`'s scope (nor
at module level), so a `NameError` is raised, swallowed by the block's
`except Exception`, and `None` is returned — zero retry calls.  Evidence at
the truncated response `{"lines": [` (whose repair `{"lines"}` does not
parse), with a retry response that WOULD parse: the result is `None` and no
retry request is made. -/
theorem C1_no_retry_call :
    pyNameDefined "source_lang" = false ∧ pyNameDefined "target_lang" = false ∧
    call_claude_vision_model "\x7b\"lines\": [" 11 22 "\x7b\"lines\":[]\x7d" =
      ⟨none, 0⟩ :=
  ⟨rfl, rfl, rfl⟩

/-- C2: the claim states that `ocr_extract_text` paragraph-joins remaining
lines (a line without terminal punctuation is joined with the next).  The
source computes exactly that grouping (second pass, lines 739-830) but then
reassigns `lines_out` at line 832, rebuilding it from `raw` with filtering
only, so the returned text is never joined.  At the two-line input below, the
first line lacks terminal punctuation and the second is no title/bullet/
quoted option, so the claim requires one joined line; the function returns
the two lines unchanged, while the discarded grouping pass would indeed have
joined them. -/
theorem C2_no_paragraph_join :
    ocr_extract_text_model "Hello mundo\nsigue aqui" = "Hello mundo\nsigue aqui" ∧
    ocr_smart_grouped ["Hello mundo", "sigue aqui"] = ["Hello mundo sigue aqui"] :=
  ⟨rfl, rfl⟩

/-- C5: the claim states that the repaired text parses whenever the
truncation point follows a complete top-level key/value pair.  At `{"a": 1` —
truncated right after the complete pair `"a": 1` (the untruncated `{"a": 1}`
parses, third conjunct) — the backward scan does not recognise the digit `1`
as a boundary (the source compares each character against the nine-character
string `'0123456789'` inside the tuple, which never matches), truncates back
to the closing quote of `"a"`, and returns `{"a"}`, which `json.loads`
rejects. -/
theorem C5_repair_unparseable :
    _repair_truncated_json "\x7b\"a\": 1" = some "\x7b\"a\"\x7d" ∧
    json_loads "\x7b\"a\"\x7d" = none ∧
    (json_loads "\x7b\"a\": 1\x7d").isSome = true :=
  ⟨rfl, rfl, rfl⟩

/-- C3 counterexample: in `ocr_free` mode with `source_lang == target_lang`
("es"/"es") but an API key configured, the code still issues a text-LLM call
(the passthrough check lives only in the fallback branch): at OCR text "hola"
and an HTTP 200 answer "hola", one LLM request is made and the recorded
method is "openrouter", not "passthrough" — refuting the claim as stated. -/
theorem C3_llm_called_despite_same_lang :
    (call_ocr_openrouter_model "hola" "es" "es" (some "sk-key") "m" c3_oracle none).llm_requests
      = 1 ∧
    (call_ocr_openrouter_model "hola" "es" "es" (some "sk-key") "m" c3_oracle none).result.map
      (·.translation_method) = some (some "openrouter") :=
  ⟨rfl, rfl⟩

/-- C4: the claim states that any `openrouter_vision` failure (including
malformed JSON) falls back to the OCR chain with the key withheld, so the
recorded method is "offline".  Two refutations from the code: (1) on
malformed JSON, `call_openrouter_vision` returns an error dict — not `None` —
so `process_ppt_slide` never falls back and the slide is recorded failed with
method "unknown"; (2) even on the one failure shape that does return `None`
(parseable JSON without "lines"/"blocks"), the fallback runs and succeeds
offline, but the stats branch compares the provider against
"openrouter-vision" while the pipeline passes "openrouter", so the recorded
method is `None` — in neither case "offline". -/
theorem C4_no_fallback_method_unknown :
    c4_outcome = some (errorResult "Translation error: JSONDecodeError") ∧
    c4_run.map (fun st => (st.processed_slides, st.failed_slides,
      st.slide_methods.map (·.method))) = some (0, 1, [some "unknown"]) ∧
    c4b_run.map (fun st => (st.processed_slides, st.failed_slides,
      st.slide_methods.map (·.method))) = some (1, 0, [none]) :=
  ⟨rfl, rfl, rfl⟩

/-- C3 (amended): in `ocr_free` mode with `source_lang == target_lang` and no
API key configured, no text-LLM request and no offline-MT call occurs, and
the returned translated text equals the cleaned OCR text, with method (and
model) recorded as "passthrough" and the stage error "No API key configured". -/
theorem C3_passthrough_no_calls (rawText lang model : String) (oracle : Nat → HResp)
    (offline : Option String) (h : pyStrip rawText ≠ "") :
    (call_ocr_openrouter_model rawText lang lang none model oracle offline).llm_requests = 0 ∧
    (call_ocr_openrouter_model rawText lang lang none model oracle offline).offline_calls = 0 ∧
    (call_ocr_openrouter_model rawText lang lang none model oracle offline).result =
      some ⟨some rawText, some rawText, some (.flat (build_text_structure rawText)), none,
            some "passthrough", some "passthrough", some "No API key configured", none⟩ := by
  have hne : rawText ≠ "" := by
    intro e
    exact h (by rw [e]; rfl)
  unfold call_ocr_openrouter_model
  simp [pyTruthyOptStr, hne, h]

/-- C3 witness: the amended statement instantiated at OCR text "hola". -/
theorem C3_witness :
    (call_ocr_openrouter_model "hola" "es" "es" none "m" c3_oracle none).llm_requests = 0 ∧
    (call_ocr_openrouter_model "hola" "es" "es" none "m" c3_oracle none).offline_calls = 0 ∧
    (call_ocr_openrouter_model "hola" "es" "es" none "m" c3_oracle none).result =
      some ⟨some "hola", some "hola", some (.flat (build_text_structure "hola")), none,
            some "passthrough", some "passthrough", some "No API key configured", none⟩ :=
  C3_passthrough_no_calls "hola" "es" "m" c3_oracle none (by decide)

/-- Helper: peeling one backoff wait off the reversed accumulator. -/
theorem range_map_reverse_succ (n : Nat) (f : Nat → Nat) :
    ((List.range (n + 1)).map f).reverse = f n :: ((List.range n).map f).reverse := by
  rw [List.range_succ, List.map_append, List.reverse_append]
  simp

/-- Helper for C6: the retry loop satisfies `RetrySpec` from any reachable
intermediate state (induction on the remaining fuel). -/
theorem retryGo_spec (oracle : Nat → HResp) :
    ∀ (fuel attempt : Nat) (prev : Option String), attempt + fuel = 4 → attempt ≤ 3 →
      (∀ j, j < attempt → ∃ u v c, oracle j = .ok 429 u v c) →
      RetrySpec oracle (retryGo oracle 3 2 fuel attempt
        (((List.range attempt).map (fun k => 2 ^ (k + 1))).reverse) prev) := by
  intro fuel
  induction fuel with
  | zero =>
    intro attempt prev hfa hle _
    exact absurd hfa (by omega)
  | succ fuel ih =>
    intro attempt prev hfa hle h429
    simp only [retryGo]
    cases horc : oracle attempt with
    | netTimeout =>
      dsimp only
      refine ⟨show attempt + 1 ≤ 4 by omega, ?_, ?_, ?_, ?_, ?_⟩
      · show (((List.range attempt).map (fun k => 2 ^ (k + 1))).reverse).reverse =
          (List.range (attempt + 1 - 1)).map (fun k => 2 ^ (k + 1))
        simp
      · intro i hi
        have hi' : i + 1 < attempt + 1 := hi
        exact h429 i (by omega)
      · intro i s u v c hi hoi _ _ hne
        have hi' : i < attempt + 1 := hi
        rcases Nat.lt_succ_iff_lt_or_eq.mp hi' with hlt | heq
        · obtain ⟨u', v', c', h'⟩ := h429 i hlt
          rw [h'] at hoi
          exact absurd (HResp.ok.inj hoi.symm).1 hne
        · rw [heq, horc] at hoi
          exact absurd hoi (by simp)
      · intro i u v c hi hoi _
        have hi' : i < attempt + 1 := hi
        rcases Nat.lt_succ_iff_lt_or_eq.mp hi' with hlt | heq
        · show i + 1 < attempt + 1
          omega
        · rw [heq, horc] at hoi
          exact absurd hoi (by simp)
      · intro i u v c hi hoi hge3
        have hi' : i < attempt + 1 := hi
        rcases Nat.lt_succ_iff_lt_or_eq.mp hi' with hlt | heq
        · exact absurd (show i < 3 by omega) hge3
        · rw [heq, horc] at hoi
          exact absurd hoi (by simp)
    | netConnError =>
      dsimp only
      refine ⟨show attempt + 1 ≤ 4 by omega, ?_, ?_, ?_, ?_, ?_⟩
      · show (((List.range attempt).map (fun k => 2 ^ (k + 1))).reverse).reverse =
          (List.range (attempt + 1 - 1)).map (fun k => 2 ^ (k + 1))
        simp
      · intro i hi
        have hi' : i + 1 < attempt + 1 := hi
        exact h429 i (by omega)
      · intro i s u v c hi hoi _ _ hne
        have hi' : i < attempt + 1 := hi
        rcases Nat.lt_succ_iff_lt_or_eq.mp hi' with hlt | heq
        · obtain ⟨u', v', c', h'⟩ := h429 i hlt
          rw [h'] at hoi
          exact absurd (HResp.ok.inj hoi.symm).1 hne
        · rw [heq, horc] at hoi
          exact absurd hoi (by simp)
      · intro i u v c hi hoi _
        have hi' : i < attempt + 1 := hi
        rcases Nat.lt_succ_iff_lt_or_eq.mp hi' with hlt | heq
        · show i + 1 < attempt + 1
          omega
        · rw [heq, horc] at hoi
          exact absurd hoi (by simp)
      · intro i u v c hi hoi hge3
        have hi' : i < attempt + 1 := hi
        rcases Nat.lt_succ_iff_lt_or_eq.mp hi' with hlt | heq
        · exact absurd (show i < 3 by omega) hge3
        · rw [heq, horc] at hoi
          exact absurd hoi (by simp)
    | ok s uin uout content =>
      dsimp only
      by_cases hs : s = 429 ∧ attempt < 3
      · rw [if_pos hs]
        have hrw : (2 : Nat) ^ (attempt + 1) :: ((List.range attempt).map
            (fun k => 2 ^ (k + 1))).reverse =
            ((List.range (attempt + 1)).map (fun k => 2 ^ (k + 1))).reverse := by
          rw [range_map_reverse_succ]
        rw [hrw]
        refine ih (attempt + 1) (some content) (by omega) (by omega) ?_
        intro j hj
        rcases Nat.lt_succ_iff_lt_or_eq.mp hj with hlt | heq
        · exact h429 j hlt
        · exact ⟨uin, uout, content, by rw [heq, ← hs.1, horc]⟩
      · rw [if_neg hs]
        by_cases h45 : 400 ≤ s ∧ s < 600
        · rw [if_pos h45]
          refine ⟨show attempt + 1 ≤ 4 by omega, ?_, ?_, ?_, ?_, ?_⟩
          · show (((List.range attempt).map (fun k => 2 ^ (k + 1))).reverse).reverse =
              (List.range (attempt + 1 - 1)).map (fun k => 2 ^ (k + 1))
            simp
          · intro i hi
            have hi' : i + 1 < attempt + 1 := hi
            exact h429 i (by omega)
          · intro i s' u v c hi hoi _ _ hne
            have hi' : i < attempt + 1 := hi
            rcases Nat.lt_succ_iff_lt_or_eq.mp hi' with hlt | heq
            · obtain ⟨u', v', c', h'⟩ := h429 i hlt
              rw [h'] at hoi
              exact absurd (HResp.ok.inj hoi.symm).1 hne
            · rw [heq, horc] at hoi
              obtain ⟨hs', hu, hv, hc⟩ := HResp.ok.inj hoi.symm
              constructor
              · show attempt + 1 = i + 1
                omega
              · show ROutcome.httpError s content = ROutcome.httpError s' c
                rw [hs', hc]
          · intro i u v c hi hoi hlt3
            have hi' : i < attempt + 1 := hi
            rcases Nat.lt_succ_iff_lt_or_eq.mp hi' with hlt | heq
            · show i + 1 < attempt + 1
              omega
            · rw [heq, horc] at hoi
              obtain ⟨hs429, hu, hv, hc⟩ := HResp.ok.inj hoi
              exact absurd ⟨hs429, by omega⟩ hs
          · intro i u v c hi hoi hge3
            have hi' : i < attempt + 1 := hi
            rcases Nat.lt_succ_iff_lt_or_eq.mp hi' with hlt | heq
            · exact absurd (show i < 3 by omega) hge3
            · rw [heq, horc] at hoi
              obtain ⟨hs429, hu, hv, hc⟩ := HResp.ok.inj hoi
              constructor
              · show attempt + 1 = i + 1
                omega
              · show ROutcome.httpError s content = ROutcome.httpError 429 c
                rw [hs429, hc]
        · rw [if_neg h45]
          refine ⟨show attempt + 1 ≤ 4 by omega, ?_, ?_, ?_, ?_, ?_⟩
          · show (((List.range attempt).map (fun k => 2 ^ (k + 1))).reverse).reverse =
              (List.range (attempt + 1 - 1)).map (fun k => 2 ^ (k + 1))
            simp
          · intro i hi
            have hi' : i + 1 < attempt + 1 := hi
            exact h429 i (by omega)
          · intro i s' u v c hi hoi h4 h6 hne
            have hi' : i < attempt + 1 := hi
            rcases Nat.lt_succ_iff_lt_or_eq.mp hi' with hlt | heq
            · obtain ⟨u', v', c', h'⟩ := h429 i hlt
              rw [h'] at hoi
              exact absurd (HResp.ok.inj hoi.symm).1 hne
            · rw [heq, horc] at hoi
              obtain ⟨hs', hu, hv, hc⟩ := HResp.ok.inj hoi.symm
              exact absurd ⟨by omega, by omega⟩ h45
          · intro i u v c hi hoi _
            have hi' : i < attempt + 1 := hi
            rcases Nat.lt_succ_iff_lt_or_eq.mp hi' with hlt | heq
            · show i + 1 < attempt + 1
              omega
            · rw [heq, horc] at hoi
              obtain ⟨hs429, hu, hv, hc⟩ := HResp.ok.inj hoi
              exact absurd ⟨by omega, by omega⟩ h45
          · intro i u v c hi hoi hge3
            have hi' : i < attempt + 1 := hi
            rcases Nat.lt_succ_iff_lt_or_eq.mp hi' with hlt | heq
            · exact absurd (show i < 3 by omega) hge3
            · rw [heq, horc] at hoi
              obtain ⟨hs429, hu, hv, hc⟩ := HResp.ok.inj hoi
              exact absurd ⟨by omega, by omega⟩ h45

/-- C6: every HTTP call made through the adapters' retry loop
(`openrouter_retry`, used by both `call_openrouter_vision` and
`call_ocr_openrouter`) follows the claimed policy: an HTTP 429 answer with
retry budget remaining is always followed by another request, up to 3 retries
in total, with exponential backoff waits of `2 ^ attempt` seconds (attempts
numbered 1, 2, 3, i.e. waits 2, 4, 8); a fourth consecutive 429 ends the call
with its HTTPError; and any other 4xx/5xx response aborts the call
immediately with no further request. -/
theorem C6_retry_policy (oracle : Nat → HResp) :
    RetrySpec oracle (openrouter_retry oracle) :=
  retryGo_spec oracle 4 0 none rfl (by omega) (fun j hj => absurd hj (Nat.not_lt_zero j))

/-- C6 witness: on an all-429 oracle the loop retries — 4 requests in total,
waits of 2, 4 and 8 seconds, ending with the 429 HTTPError; on a first
response of HTTP 500 it ends after exactly one request with no retry. -/
theorem C6_witness :
    1 < (openrouter_retry c6b_oracle).requests ∧
    (openrouter_retry c6b_oracle).requests = 4 ∧
    (openrouter_retry c6b_oracle).outcome = .httpError 429 "slow down" ∧
    (openrouter_retry c6b_oracle).waits = [2, 4, 8] ∧
    (openrouter_retry c6_oracle).requests = 1 ∧
    (openrouter_retry c6_oracle).outcome = .httpError 500 "boom" := by
  have hb := C6_retry_policy c6b_oracle
  have ha := C6_retry_policy c6_oracle
  unfold RetrySpec at hb ha
  have hretry : 1 < (openrouter_retry c6b_oracle).requests :=
    hb.2.2.2.2.1 0 0 0 "slow down" (by decide) rfl (by decide)
  obtain ⟨hreq, hout⟩ := hb.2.2.2.2.2 3 0 0 "slow down" (by decide) rfl (by decide)
  have hwaits : (openrouter_retry c6b_oracle).waits = [2, 4, 8] := by
    have hw := hb.2.1
    rw [hreq] at hw
    exact hw.trans (by decide)
  obtain ⟨hareq, haout⟩ :=
    ha.2.2.2.1 0 500 0 0 "boom" (by decide) rfl (by decide) (by decide) (by decide)
  exact ⟨hretry, hreq, hout, hwaits, hareq, haout⟩

/-- Helper: the processed-slide branch increments exactly `processed_slides`
(and never the other two counters or the slide total). -/
theorem processedBranch_counts (provider model : String) (stats : StatsD) (idx : Nat)
    (r : ResultDictD) :
    (processedBranch provider model stats idx r).processed_slides =
      stats.processed_slides + 1 ∧
    (processedBranch provider model stats idx r).skipped_slides = stats.skipped_slides ∧
    (processedBranch provider model stats idx r).failed_slides = stats.failed_slides ∧
    (processedBranch provider model stats idx r).total_slides = stats.total_slides := by
  unfold processedBranch
  cases r.usage with
  | none => simp
  | some u =>
    dsimp only
    split_ifs <;> simp

/-- Helper: the failed-slide branch increments exactly `failed_slides`. -/
theorem failBranch_counts (stats : StatsD) (idx : Nat) (msg : String) :
    (failBranch stats idx msg).processed_slides = stats.processed_slides ∧
    (failBranch stats idx msg).skipped_slides = stats.skipped_slides ∧
    (failBranch stats idx msg).failed_slides = stats.failed_slides + 1 ∧
    (failBranch stats idx msg).total_slides = stats.total_slides ∧
    (failBranch stats idx msg).total_cost = stats.total_cost := by
  unfold failBranch
  simp

/-- Helper: the cost added by the processed branch for the claude provider. -/
theorem processedBranch_cost (model : String) (stats : StatsD) (idx : Nat)
    (r : ResultDictD) :
    (processedBranch "claude" model stats idx r).total_cost = stats.total_cost +
      (match r.usage with
       | some u =>
         (u.input_tokens : ℚ) / 1000000 * (claudePrices model).1 +
           (u.output_tokens : ℚ) / 1000000 * (claudePrices model).2
       | none => 0) := by
  unfold processedBranch
  cases r.usage with
  | none => simp
  | some u => simp

/-- Helper for C10: the loop adds exactly one counter unit per slide. -/
theorem pipelineLoop_partition (provider model : String) (selected : List Nat) :
    ∀ (slides : List SlideSpecM) (idx : Nat) (stats out : StatsD),
      pipelineLoop provider model selected slides idx stats = some out →
      out.processed_slides + out.skipped_slides + out.failed_slides =
        stats.processed_slides + stats.skipped_slides + stats.failed_slides +
          slides.length ∧
      out.total_slides = stats.total_slides := by
  intro slides
  induction slides with
  | nil =>
    intro idx stats out h
    simp only [pipelineLoop, Option.some.injEq] at h
    subst h
    simp
  | cons s rest ih =>
    intro idx stats out h
    unfold pipelineLoop at h
    split at h
    · obtain ⟨hsum, htot⟩ := ih _ _ _ h
      have hsum' : out.processed_slides + out.skipped_slides + out.failed_slides =
          stats.processed_slides + (stats.skipped_slides + 1) + stats.failed_slides +
            rest.length := hsum
      have htot' : out.total_slides = stats.total_slides := htot
      refine ⟨?_, htot'⟩
      simp only [List.length_cons]
      omega
    · split at h
      · obtain ⟨hsum, htot⟩ := ih _ _ _ h
        have hsum' : out.processed_slides + out.skipped_slides + out.failed_slides =
            stats.processed_slides + (stats.skipped_slides + 1) + stats.failed_slides +
              rest.length := hsum
        have htot' : out.total_slides = stats.total_slides := htot
        refine ⟨?_, htot'⟩
        simp only [List.length_cons]
        omega
      · cases hout : s.outcome with
        | exc msg =>
          rw [hout] at h
          dsimp only at h
          split at h
          · exact absurd h (by simp)
          · obtain ⟨hsum, htot⟩ := ih _ _ _ h
            obtain ⟨f1, f2, f3, f4, _⟩ := failBranch_counts stats idx msg
            rw [f1, f2, f3] at hsum
            rw [f4] at htot
            refine ⟨?_, htot⟩
            simp only [List.length_cons]
            omega
        | res result =>
          rw [hout] at h
          dsimp only at h
          cases result with
          | some r =>
            dsimp only at h
            split at h
            · obtain ⟨hsum, htot⟩ := ih _ _ _ h
              obtain ⟨p1, p2, p3, p4⟩ := processedBranch_counts provider model stats idx r
              rw [p1, p2, p3] at hsum
              rw [p4] at htot
              refine ⟨?_, htot⟩
              simp only [List.length_cons]
              omega
            · obtain ⟨hsum, htot⟩ := ih _ _ _ h
              obtain ⟨f1, f2, f3, f4, _⟩ :=
                failBranch_counts stats idx (r.error.getD "No result from API (unknown error)")
              rw [f1, f2, f3] at hsum
              rw [f4] at htot
              refine ⟨?_, htot⟩
              simp only [List.length_cons]
              omega
          | none =>
            dsimp only at h
            obtain ⟨hsum, htot⟩ := ih _ _ _ h
            obtain ⟨f1, f2, f3, f4, _⟩ :=
              failBranch_counts stats idx "No result from API (unknown error)"
            rw [f1, f2, f3] at hsum
            rw [f4] at htot
            refine ⟨?_, htot⟩
            simp only [List.length_cons]
            omega

/-- C10: for every run of `create_translated_ppt` that completes without a
cancellation exception, `processed_slides + skipped_slides + failed_slides =
total_slides`: every slide of the deck lands in exactly one of the three
counters (unselected or image-less slides are skipped, slides with a truthy
returned structure processed, every other selected slide with an image
failed). -/
theorem C10_slide_partition (provider model : String) (selected : List Nat)
    (slides : List SlideSpecM) (out : StatsD)
    (h : create_translated_ppt_model provider model selected slides = some out) :
    out.processed_slides + out.skipped_slides + out.failed_slides = out.total_slides := by
  unfold create_translated_ppt_model at h
  obtain ⟨hsum, htot⟩ := pipelineLoop_partition provider model selected slides 0 _ out h
  simp only [] at hsum htot
  omega

/-- C10 witness: a four-slide deck with one processed, one image-less, one
failed result and one non-cancellation exception: 1 + 1 + 2 = 4. -/
theorem C10_witness :
    c10_out.processed_slides + c10_out.skipped_slides + c10_out.failed_slides =
      c10_out.total_slides :=
  C10_slide_partition "ocr_free" "m" [0, 1, 2, 3] c10_slides c10_out (by decide)

/-- Helper for C9: along the loop, `total_cost` grows by exactly the spec-side
per-slide sum. -/
theorem pipelineLoop_cost (model : String) (selected : List Nat) :
    ∀ (slides : List SlideSpecM) (idx : Nat) (stats out : StatsD),
      pipelineLoop "claude" model selected slides idx stats = some out →
      out.total_cost = stats.total_cost + specCostGo model selected slides idx := by
  intro slides
  induction slides with
  | nil =>
    intro idx stats out h
    simp only [pipelineLoop, Option.some.injEq] at h
    subst h
    simp [specCostGo]
  | cons s rest ih =>
    intro idx stats out h
    unfold pipelineLoop at h
    simp only [specCostGo]
    split at h
    · -- unselected: skipped
      rename_i hsel
      have hsel' : selected.contains idx = false := by
        revert hsel
        cases selected.contains idx <;> simp
      have hc0 := ih _ _ _ h
      have hc : out.total_cost = stats.total_cost +
          specCostGo model selected rest (idx + 1) := hc0
      rw [if_neg (fun hand => by rw [hsel'] at hand; simp at hand)]
      rw [hc]
      ring
    · split at h
      · -- no image: skipped
        rename_i himg
        have himg' : s.hasImage = false := by
          revert himg
          cases s.hasImage <;> simp
        have hc0 := ih _ _ _ h
        have hc : out.total_cost = stats.total_cost +
            specCostGo model selected rest (idx + 1) := hc0
        rw [if_neg (fun hand => by rw [himg'] at hand; simp at hand)]
        rw [hc]
        ring
      · rename_i hsel himg
        have hsel' : selected.contains idx = true := by
          revert hsel
          cases selected.contains idx <;> simp
        have himg' : s.hasImage = true := by
          revert himg
          cases s.hasImage <;> simp
        rw [if_pos ⟨hsel', himg'⟩]
        cases hout : s.outcome with
        | exc msg =>
          rw [hout] at h
          dsimp only at h
          split at h
          · exact absurd h (by simp)
          · have hc := ih _ _ _ h
            obtain ⟨_, _, _, _, f5⟩ := failBranch_counts stats idx msg
            rw [f5] at hc
            rw [hc]
            have hsl : slideUsage s = none := by simp [slideUsage, hout]
            rw [hsl]
            ring
        | res result =>
          rw [hout] at h
          dsimp only at h
          cases result with
          | some r =>
            dsimp only at h
            split at h
            · rename_i htr
              have hc := ih _ _ _ h
              rw [processedBranch_cost model stats idx r] at hc
              have hsl : slideUsage s = r.usage := by simp [slideUsage, hout, htr]
              rw [hc, hsl]
              rcases hru : r.usage with _ | u <;> dsimp only <;> ring
            · rename_i htr
              have hc := ih _ _ _ h
              obtain ⟨_, _, _, _, f5⟩ :=
                failBranch_counts stats idx (r.error.getD "No result from API (unknown error)")
              rw [f5] at hc
              rw [hc]
              have hsl : slideUsage s = none := by
                simp only [slideUsage, hout]
                rw [if_neg (by simp [htr])]
              rw [hsl]
              ring
          | none =>
            dsimp only at h
            have hc := ih _ _ _ h
            obtain ⟨_, _, _, _, f5⟩ :=
              failBranch_counts stats idx "No result from API (unknown error)"
            rw [f5] at hc
            rw [hc]
            have hsl : slideUsage s = none := by simp [slideUsage, hout]
            rw [hsl]
            ring

/-- C9: for the claude provider, a completed run's accumulated `total_cost`
equals the spec formula — the sum over successfully processed slides of
`input_tokens/1e6 * input_price + output_tokens/1e6 * output_price`
(`spec_claude_cost`, written from the spec's words) — with the price pair
keyed by model name: 1.0/5.0 per million tokens for the haiku model,
3.0/15.0 otherwise.  Both sides are computed in exact rational arithmetic,
which is what "exactly up to floating-point tolerance" licenses. -/
theorem C9_cost_accumulation (model : String) (selected : List Nat)
    (slides : List SlideSpecM) (out : StatsD)
    (h : create_translated_ppt_model "claude" model selected slides = some out) :
    out.total_cost = spec_claude_cost model selected slides ∧
    claudePrices "claude-3-haiku-20240307" = (1, 5) ∧
    (model ≠ "claude-3-haiku-20240307" → claudePrices model = (3, 15)) := by
  refine ⟨?_, rfl, fun hm => by simp [claudePrices, hm]⟩
  unfold create_translated_ppt_model at h
  have hc := pipelineLoop_cost model selected slides 0 _ out h
  have hc' : out.total_cost = 0 + specCostGo model selected slides 0 := hc
  rw [hc']
  unfold spec_claude_cost
  ring

/-- C9 witness: a two-slide haiku deck with 1M input / 2M output tokens per
slide costs exactly 2 * (1 + 10) = 22 dollars, matching the spec sum; and a
non-haiku model name selects the 3.0/15.0 price pair. -/
theorem C9_witness :
    c9_out.total_cost = spec_claude_cost "claude-3-haiku-20240307" [0, 1] c9_slides ∧
    claudePrices "claude-sonnet-4-20250514" = (3, 15) := by
  have h1 : create_translated_ppt_model "claude" "claude-3-haiku-20240307" [0, 1] c9_slides =
      some c9_out := by
    simp only [create_translated_ppt_model, c9_slides, c9_result, c9_out, pipelineLoop,
      processedBranch, claudePrices, structTruthy, failBranch, List.contains, List.length]
    norm_num
    decide
  have h2 : create_translated_ppt_model "claude" "claude-sonnet-4-20250514" [] [] =
      some c9_empty_out := by
    simp [create_translated_ppt_model, pipelineLoop, c9_empty_out]
  exact ⟨(C9_cost_accumulation "claude-3-haiku-20240307" [0, 1] c9_slides c9_out h1).1,
    (C9_cost_accumulation "claude-sonnet-4-20250514" [] [] c9_empty_out h2).2.2 (by decide)⟩

/-- Helper: every font-fit trace starts with its input frame. -/
theorem reduce_font_trace_head (m : ℚ) (k : Nat) (f : TFrame) :
    ∃ l, reduce_font_trace m k f = f :: l := by
  cases k with
  | zero => exact ⟨[], rfl⟩
  | succ k =>
    unfold reduce_font_trace
    split
    · exact ⟨[], rfl⟩
    · split
      · exact ⟨[], rfl⟩
      · split
        · exact ⟨[], rfl⟩
        · exact ⟨_, rfl⟩

/-- Helper: run positions of the reduced frame, componentwise. -/
theorem sizeAt_reduceAll (m : ℚ) (f : TFrame) (i j : Nat) :
    sizeAt (reduceAll m f) i j =
      (f.paras.get? i).bind (fun p => (p.runs.get? j).bind (fun r => (reduceRun m r).size)) := by
  unfold sizeAt reduceAll
  dsimp only
  rw [List.get?_map]
  cases f.paras.get? i with
  | none => rfl
  | some p =>
    dsimp only [Option.map_some', Option.some_bind]
    rw [List.get?_map]
    cases p.runs.get? j <;> rfl

/-- Helper: one reduction round relates to the previous state by `fontStep`:
each run is unchanged or shrinks strictly while staying at or above the floor. -/
theorem fontStep_reduceAll (m : ℚ) (f : TFrame) : fontStep m f (reduceAll m f) := by
  intro i j
  rw [sizeAt_reduceAll m f i j]
  unfold sizeAt
  cases hp : f.paras.get? i with
  | none => left; rfl
  | some p =>
    dsimp only [Option.some_bind]
    cases hr : p.runs.get? j with
    | none => left; rfl
    | some r =>
      dsimp only [Option.some_bind]
      cases hs : r.size with
      | none =>
        left
        unfold reduceRun
        rw [hs]
        dsimp only
        exact hs
      | some s =>
        unfold reduceRun
        rw [hs]
        dsimp only
        by_cases hc : sizeTruthy (some s) = true ∧ s > m
        · rw [if_pos hc]
          right
          refine ⟨s, max m (s - 1/2), rfl, rfl, ?_, le_max_left _ _⟩
          rw [max_lt_iff]
          exact ⟨hc.2, by linarith⟩
        · rw [if_neg hc]
          left
          rw [hs]

/-- Helper: the whole font-fit trace is a `fontStep` chain. -/
theorem reduce_font_trace_chain (m : ℚ) (k : Nat) (f : TFrame) :
    List.Chain' (fontStep m) (reduce_font_trace m k f) := by
  induction k generalizing f with
  | zero => simp [reduce_font_trace]
  | succ k ih =>
    unfold reduce_font_trace
    split
    · simp
    · split
      · simp
      · split
        · simp
        · obtain ⟨l, hl⟩ := reduce_font_trace_head m k (reduceAll m f)
          rw [hl]
          have hc := ih (reduceAll m f)
          rw [hl] at hc
          exact List.chain'_cons.mpr ⟨fontStep_reduceAll m f, hc⟩

/-- Helper: the font-fit loop executes at most `maxIter` reduction rounds. -/
theorem reduce_font_trace_length (m : ℚ) (k : Nat) (f : TFrame) :
    (reduce_font_trace m k f).length ≤ k + 1 := by
  induction k generalizing f with
  | zero => simp [reduce_font_trace]
  | succ k ih =>
    unfold reduce_font_trace
    split
    · simp
    · split
      · simp
      · split
        · simp
        · have := ih (reduceAll m f)
          simp only [List.length_cons]
          omega

/-- C7: the font-fit loop of `reduce_font_if_overflow` terminates within the
configured maximum iteration count (the trace of states has at most
`maxIter + 1` entries, `maxIter = 20` and `minSize = 6` at the call site),
and along the trace every run's font size either stays unchanged or is
assigned a strictly smaller value that is still at least the configured
floor — i.e. each run's size sequence is non-increasing and the loop never
pushes a size below `min_font_size`. -/
theorem C7_font_fit (maxIter : Nat) (minSize : ℚ) (f : TFrame) :
    (reduce_font_trace minSize maxIter f).length ≤ maxIter + 1 ∧
    List.Chain' (fontStep minSize) (reduce_font_trace minSize maxIter f) :=
  ⟨reduce_font_trace_length minSize maxIter f, reduce_font_trace_chain minSize maxIter f⟩

/-- Helper: only the key "red" maps to the red RGB in `color_map`. -/
theorem colorMapGet_red (n : String) (h : colorMapGet n = (211, 47, 47)) : n = "red" := by
  unfold colorMapGet color_map at h
  simp only [List.find?] at h
  repeat' split at h
  all_goals simp_all

/-- Helper: if the coerced color name resolves to the red RGB, the block was
bold (the coercion sends non-bold red to black, and no other name is red). -/
theorem coercedColor_red (f : FormattingSpec)
    (h : colorMapGet (if pyLower f.color = "red" ∧ f.bold = false then "black"
          else pyLower f.color) = (211, 47, 47)) :
    f.bold = true := by
  by_cases hred : pyLower f.color = "red" ∧ f.bold = false
  · rw [if_pos hred] at h
    have := colorMapGet_red _ h
    exact absurd this (by decide)
  · rw [if_neg hred] at h
    have hname := colorMapGet_red _ h
    cases hbv : f.bold
    · exact absurd ⟨hname, hbv⟩ hred
    · rfl

/-- Helper: every run `write_run` emits satisfies the red⇒bold invariant. -/
theorem write_run_mk_runOk (text : String) (f : FormattingSpec) (base : Int) (r : RRun)
    (h : write_run_mk text f base = some r) : runOk r := by
  simp only [write_run_mk] at h
  split at h
  · exact absurd h (by simp)
  · simp only [Option.some.injEq] at h
    subst h
    intro hcol
    have hc := Option.some.inj hcol
    have hb := coercedColor_red f hc
    show some f.bold = some true
    rw [hb]

/-- Helper: `runOk` for the spacer run (it carries no color). -/
theorem spacerRun_runOk (base : Int) : runOk (spacerRun base) := by
  intro hcol
  exact absurd hcol (by simp [spacerRun])

/-- Helper: `rAddPara` preserves the invariant. -/
theorem stateOk_rAddPara (st : RState) (h : stateOk st) : stateOk (rAddPara st) := by
  obtain ⟨h1, h2⟩ := h
  constructor
  · intro p hp r hr
    unfold rAddPara at hp
    dsimp only at hp
    rcases List.mem_append.mp hp with hl | hr'
    · exact h1 p hl r hr
    · rw [List.mem_singleton] at hr'
      subst hr'
      exact h2 r hr
  · intro r hr
    unfold rAddPara at hr
    simp at hr

/-- Helper: `rOpenPara` preserves the invariant. -/
theorem stateOk_rOpenPara (st : RState) (a : String) (h : stateOk st) :
    stateOk (rOpenPara st a) := by
  unfold rOpenPara
  split
  · exact ⟨h.1, h.2⟩
  · have h' := stateOk_rAddPara st h
    exact ⟨h'.1, h'.2⟩

/-- Helper: `rAddRun` preserves the invariant when the added run is OK. -/
theorem stateOk_rAddRun (st : RState) (r : RRun) (h : stateOk st) (hr : runOk r) :
    stateOk (rAddRun st r) := by
  refine ⟨h.1, ?_⟩
  intro r' hr'
  unfold rAddRun at hr'
  dsimp only at hr'
  rcases List.mem_append.mp hr' with hl | he
  · exact h.2 r' hl
  · rw [List.mem_singleton] at he
    subst he
    exact hr

/-- Helper: appending the `write_run` output (if any) preserves the invariant. -/
theorem stateOk_writeStep (st : RState) (text : String) (f : FormattingSpec) (base : Int)
    (h : stateOk st) :
    stateOk (match write_run_mk text f base with
             | some r => rAddRun st r
             | none => st) := by
  cases hw : write_run_mk text f base with
  | none => exact h
  | some r => exact stateOk_rAddRun st r h (write_run_mk_runOk text f base r hw)

/-- Helper: the content-line block loop preserves the invariant. -/
theorem stateOk_renderBlocksGo (base : Int) (alignment : String) (total : Nat) :
    ∀ (blocks : List TextBlockD) (bIdx : Nat) (st : RState), stateOk st →
      stateOk (renderBlocksGo base alignment total blocks bIdx st) := by
  intro blocks
  induction blocks with
  | nil => intro bIdx st h; exact h
  | cons b rest ih =>
    intro bIdx st h
    unfold renderBlocksGo
    apply ih
    dsimp only
    split
    · exact stateOk_rOpenPara _ _ (stateOk_writeStep st _ _ base h)
    · exact stateOk_writeStep st _ _ base h

/-- Helper: rendering one line preserves the invariant. -/
theorem stateOk_renderLine (base : Int) (st : RState) (line : LineEntryD)
    (h : stateOk st) : stateOk (renderLine base st line) := by
  simp only [renderLine]
  split
  · split
    · exact h
    · exact stateOk_rAddRun _ _ (stateOk_rOpenPara st line.alignment h) (spacerRun_runOk base)
  · exact stateOk_renderBlocksGo base line.alignment _ _ 0 _ (stateOk_rOpenPara st line.alignment h)

/-- Helper: the line fold preserves the invariant. -/
theorem stateOk_foldl (base : Int) :
    ∀ (lines : List LineEntryD) (st : RState), stateOk st →
      stateOk (lines.foldl (renderLine base) st) := by
  intro lines
  induction lines with
  | nil => intro st h; exact h
  | cons l rest ih =>
    intro st h
    exact ih _ (stateOk_renderLine base st l h)

/-- Helper: the OCR-mode block loop preserves the invariant. -/
theorem stateOk_renderOcrGo (base : Int) :
    ∀ (blocks : List TextBlockD) (idx : Nat) (st : RState), stateOk st →
      stateOk (renderOcrGo base blocks idx st) := by
  intro blocks
  induction blocks with
  | nil => intro idx st h; exact h
  | cons b rest ih =>
    intro idx st h
    unfold renderOcrGo
    apply ih
    dsimp only
    have h1 : stateOk (if idx = 0 then st else rAddPara st) := by
      split
      · exact h
      · exact stateOk_rAddPara st h
    have h2 : stateOk { (if idx = 0 then st else rAddPara st) with
        cur := { (if idx = 0 then st else rAddPara st).cur with
                 alignment := some (set_align b.formatting.alignment) } } :=
      ⟨h1.1, h1.2⟩
    split
    · exact stateOk_rAddRun _ _ h2 (by intro hcol; exact absurd hcol (by simp))
    · refine stateOk_rAddRun _ _ h2 ?_
      intro hcol
      have hc := Option.some.inj hcol
      have hb := coercedColor_red b.formatting hc
      show some b.formatting.bold = some true
      rw [hb]

/-- Helper: the fresh textbox satisfies the invariant. -/
theorem stateOk_initial : stateOk initialRState := by
  constructor
  · intro p hp
    simp [initialRState] at hp
  · intro r hr
    simp [initialRState] at hr

/-- C8: (1) in the full renderer (`apply_formatting_from_structure`, both the
line-based and the OCR-mode branch), no emitted run carries the red RGB
without bold set to true — and (2) `write_run` maps a block whose formatting
has color "red" and bold false to a run colored black (33, 33, 33). -/
theorem C8_red_coercion :
    (∀ (s : StructureD) (base : Int) (ocr : Bool) (p : RPara) (r : RRun),
        p ∈ apply_formatting_from_structure s base ocr → r ∈ p.runs →
        r.color = some (211, 47, 47) → r.bold = some true) ∧
    (∀ (text : String) (f : FormattingSpec) (base : Int) (r : RRun),
        pyLower f.color = "red" → f.bold = false →
        write_run_mk text f base = some r → r.color = some (33, 33, 33)) := by
  constructor
  · intro s base ocr p r hp hr hcol
    have key : ∀ st : RState, stateOk st → p ∈ rFinish st → r.bold = some true := by
      intro st hst hmem
      unfold rFinish at hmem
      rcases List.mem_append.mp hmem with hl | he
      · exact hst.1 p hl r hr hcol
      · rw [List.mem_singleton] at he
        subst he
        exact hst.2 r hr hcol
    cases s with
    | lines entries =>
      cases entries with
      | nil =>
        simp only [apply_formatting_from_structure] at hp
        exact key initialRState stateOk_initial hp
      | cons l t =>
        simp only [apply_formatting_from_structure] at hp
        exact key _ (stateOk_foldl base (l :: t) initialRState stateOk_initial) hp
    | flat items =>
      simp only [apply_formatting_from_structure] at hp
      split at hp
      · exact key _ (stateOk_renderOcrGo base items 0 initialRState stateOk_initial) hp
      · exact key initialRState stateOk_initial hp
  · intro text f base r h1 h2 hw
    simp only [write_run_mk] at hw
    split at hw
    · exact absurd hw (by simp)
    · simp only [Option.some.injEq] at hw
      subst hw
      show some (colorMapGet (if pyLower f.color = "red" ∧ f.bold = false then "black"
        else pyLower f.color)) = some (33, 33, 33)
      rw [if_pos ⟨h1, h2⟩]
      rfl

/-- C8 witness: the theorem applied at a red bold block (rendered red with
bold true) and at a red non-bold block (written black). -/
theorem C8_witness :
    (⟨"x", some true, some 14, some "Calibri", some (211, 47, 47)⟩ : RRun).bold = some true ∧
    (⟨"y", some false, some 11, some "Calibri", some (33, 33, 33)⟩ : RRun).color =
      some (33, 33, 33) :=
  ⟨C8_red_coercion.1 c8_struct 11 false
      ⟨some "left", [⟨"x", some true, some 14, some "Calibri", some (211, 47, 47)⟩]⟩
      ⟨"x", some true, some 14, some "Calibri", some (211, 47, 47)⟩
      (by decide) (by decide) rfl,
   C8_red_coercion.2 "y" c8_fmt_rednonbold 11
      ⟨"y", some false, some 11, some "Calibri", some (33, 33, 33)⟩
      rfl rfl rfl⟩
